import Mathlib

/-!
Verification of the hfqa_tool scoring and validation engine.

This file gives a shallow embedding, in Lean 4, of the record-level scoring
and validation algorithms of the hfqa_tool repository
(hfqa_tool/Combined_score.py and hfqa_tool/Vocabulary_check.py), and proves
or refutes the frozen specification claims about them.

Modelling conventions:
* Python floats are modelled by the type PyFloat (exact rationals plus
  nan and the two infinities); cells of numeric dataframe columns after
  the change_type coercion are modelled as Option Rat, with none playing
  the role of NaN (any comparison against none is false, as in IEEE).
* Python strings are Lean Strings; the split / strip / lower / substring
  operations used by the source are re-implemented below on the
  underlying character lists so that every definition is executable.
* Dataframe iteration "for id in df.index" is modelled by List.map or by
  explicit recursion when (as in the validator) the Python loop threads
  state between iterations.
-/

/-! ## String utilities (models of the Python primitives used by the source) -/

/-- Model of Python "pat is a leading part of s" on character lists. -/
def subAt : List Char → List Char → Bool
  | [], _ => true
  | _ :: _, [] => false
  | p :: ps, c :: cs => p == c && subAt ps cs

/-- Model of the Python substring test "pat in s" on character lists. -/
def containsSub (pat : List Char) : List Char → Bool
  | [] => pat.isEmpty
  | c :: cs => subAt pat (c :: cs) || containsSub pat cs

/-- Model of the Python substring test "pat in s" on strings. -/
def pyIn (pat s : String) : Bool := containsSub pat.data s.data

/-- Model of Python str.startswith. -/
def pyStarts (pat s : String) : Bool := subAt pat.data s.data

/-- Split a character list at every occurrence of the separator character;
model of Python str.split(sep) for a one-character separator. -/
def splitCh (sep : Char) : List Char → List (List Char)
  | [] => [[]]
  | c :: cs =>
    let r := splitCh sep cs
    if c == sep then [] :: r
    else match r with
      | h :: t => (c :: h) :: t
      | [] => [[c]]

/-- Model of Python s.split(sep) for a one-character separator. -/
def pySplit (sep : Char) (s : String) : List String :=
  (splitCh sep s.data).map String.mk

/-- Whitespace characters stripped by Python str.strip(). -/
def isWS (c : Char) : Bool :=
  c == ' ' || c == '\t' || c == '\n' || c == '\r' || c == '\x0b' || c == '\x0c'

/-- Model of Python str.strip() on character lists. -/
def stripChars (l : List Char) : List Char :=
  ((l.dropWhile isWS).reverse.dropWhile isWS).reverse

/-- Model of Python str.strip(). -/
def pyStrip (s : String) : String := String.mk (stripChars s.data)

/-- Model of Python str.lower() (ASCII letters; the source data is ASCII). -/
def pyLower (s : String) : String := String.mk (s.data.map Char.toLower)

/-! ## Model of Python floats and of float(...) parsing -/

/-- Model of a Python float value: an exact rational, nan, or an infinity. -/
inductive PyFloat where
  | nan : PyFloat
  | inf : PyFloat
  | ninf : PyFloat
  | num : ℚ → PyFloat
deriving DecidableEq, Repr

/-- Python truthiness of a float: 0.0 is falsy, everything else (nan and the
infinities included) is truthy. -/
def PyFloat.truthy : PyFloat → Bool
  | .num q => q != 0
  | _ => true

/-- Comparison lo <= x with a rational on the left; false on nan, as in
Python. -/
def pfGE (lo : ℚ) : PyFloat → Bool
  | .nan => false
  | .inf => true
  | .ninf => false
  | .num q => lo ≤ q

/-- Comparison x <= hi with a rational on the right; false on nan, as in
Python. -/
def pfLE (hi : ℚ) : PyFloat → Bool
  | .nan => false
  | .inf => false
  | .ninf => true
  | .num q => q ≤ hi

/-- Test for nan; model of math.isnan / np.isnan. -/
def PyFloat.isNanB : PyFloat → Bool
  | .nan => true
  | _ => false

/-- Numeric value of a digit character, if it is one. -/
def digitVal (c : Char) : Option ℕ :=
  if '0' ≤ c && c ≤ '9' then some (c.toNat - 48) else none

/-- Longest leading run of digits, as digit values, plus the rest. -/
def takeDigits : List Char → List ℕ × List Char
  | [] => ([], [])
  | c :: cs =>
    match digitVal c with
    | some d => let (ds, r) := takeDigits cs
                (d :: ds, r)
    | none => ([], c :: cs)

/-- Natural number denoted by a list of digit values. -/
def natOfDigits (ds : List ℕ) : ℕ := ds.foldl (fun a d => 10 * a + d) 0

/-- Decimal part after the mantissa: optional exponent marker with signed
digits; returns the exponent, or none if the remaining text is not a valid
(possibly empty) exponent suffix. -/
def parseExp : List Char → Option ℤ
  | [] => some 0
  | 'e' :: t =>
    let (sg, t1) : ℤ × List Char :=
      match t with
      | '-' :: r => (-1, r)
      | '+' :: r => (1, r)
      | r => (1, r)
    let (ds, r2) := takeDigits t1
    if ds.isEmpty || !r2.isEmpty then none else some (sg * natOfDigits ds)
  | _ => none

/-- Exact rational value of a decimal mantissa (integer digits and
fractional digits) scaled by a signed power of ten; assembled with mkRat so
that the definition evaluates by kernel reduction. -/
def decValue (ip fp : List ℕ) (e : ℤ) : ℚ :=
  let mant : ℤ := (natOfDigits ip * 10 ^ fp.length + natOfDigits fp : ℕ)
  match e with
  | .ofNat k => mkRat (mant * 10 ^ k) (10 ^ fp.length)
  | .negSucc k => mkRat mant (10 ^ fp.length * 10 ^ (k + 1))

/-- Mantissa and exponent of an unsigned decimal literal: digits with an
optional fractional part, then an optional exponent; at least one digit is
required, and the whole input must be consumed, as in Python float(). -/
def parseDec (l : List Char) : Option ℚ :=
  let (ip, r1) := takeDigits l
  let (fp, r2) : List ℕ × List Char :=
    match r1 with
    | '.' :: t => takeDigits t
    | _ => ([], r1)
  if ip.isEmpty && fp.isEmpty then none
  else
    match parseExp r2 with
    | some e => some (decValue ip fp e)
    | none => none

/-- Model of Python float(s): strips whitespace, accepts an optional sign,
the words nan / inf / infinity (case-insensitively), or a decimal literal;
returns none where Python raises ValueError. -/
def parsePyFloat (s : String) : Option PyFloat :=
  let l := (stripChars s.data).map Char.toLower
  let (neg, body) : Bool × List Char :=
    match l with
    | '-' :: r => (true, r)
    | '+' :: r => (false, r)
    | r => (false, r)
  if body == "nan".data then some .nan
  else if body == "inf".data || body == "infinity".data then
    some (if neg then .ninf else .inf)
  else
    match parseDec body with
    | some q => some (.num (if neg then -q else q))
    | none => none

/-! ## Uncertainty scorer (Combined_score.py, calc_U_score) -/

/-- COV computation of calc_U_score for one record: HFDunc = abs C2,
HFDmean = abs C1, masked to rows where the mean is non-zero and neither
input is missing; the masked-out rows keep COV = NaN (none). -/
def calc_COV (c1 c2 : Option ℚ) : Option ℚ :=
  match c1, c2 with
  | some m, some u => if m ≠ 0 then some (|u| / |m| * 100) else none
  | _, _ => none

/-- Grade chain of calc_U_score: NaN goes to Ux, then the ordered
comparison chain of the source is applied. -/
def U_score (cov : Option ℚ) : String :=
  match cov with
  | none => "Ux"
  | some q =>
    if q < 5 then "U1"
    else if 5 ≤ q ∧ q ≤ 15 then "U2"
    else if 15 < q ∧ q ≤ 25 then "U3"
    else if 25 < q then "U4"
    else "Ux"

/-- C1: for every record the uncertainty scorer computes
COV = abs C2 / abs C1 * 100 exactly when the mean is non-zero and
non-missing and the uncertainty is non-missing (undefined otherwise), and
grades it by the ordered rule COV < 5 to U1, 5 <= COV <= 15 to U2,
15 < COV <= 25 to U3, COV > 25 to U4, undefined to Ux; the boundary values
5, 15, 25 grade as U2, U2, U3, and every record receives exactly one grade
(in particular a defined COV never yields Ux). -/
theorem claim_C1 : ∀ c1 c2 : Option ℚ,
    ((calc_COV c1 c2).isSome ↔ ((∃ m, c1 = some m ∧ m ≠ 0) ∧ c2.isSome))
  ∧ (∀ m u : ℚ, c1 = some m → c2 = some u → m ≠ 0 →
      calc_COV c1 c2 = some (|u| / |m| * 100))
  ∧ U_score none = "Ux"
  ∧ (∀ q : ℚ, q < 5 → U_score (some q) = "U1")
  ∧ (∀ q : ℚ, 5 ≤ q → q ≤ 15 → U_score (some q) = "U2")
  ∧ (∀ q : ℚ, 15 < q → q ≤ 25 → U_score (some q) = "U3")
  ∧ (∀ q : ℚ, 25 < q → U_score (some q) = "U4")
  ∧ U_score (some 5) = "U2" ∧ U_score (some 15) = "U2" ∧ U_score (some 25) = "U3"
  ∧ (∀ q : ℚ, U_score (some q) ≠ "Ux") := by
  intro c1 c2
  refine ⟨?_, ?_, rfl, ?_, ?_, ?_, ?_, ?_, ?_, ?_, ?_⟩
  · cases c1 with
    | none => simp [calc_COV]
    | some m =>
      cases c2 with
      | none => simp [calc_COV]
      | some u => by_cases hm : m = 0 <;> simp [calc_COV, hm]
  · intro m u h1 h2 hm
    subst h1; subst h2
    simp [calc_COV, hm]
  · intro q hq
    simp [U_score, hq]
  · intro q h1 h2
    rw [U_score]
    rw [if_neg (by linarith), if_pos ⟨h1, h2⟩]
  · intro q h1 h2
    rw [U_score]
    rw [if_neg (by linarith), if_neg (by rintro ⟨_, _⟩; linarith), if_pos ⟨h1, h2⟩]
  · intro q h1
    rw [U_score]
    rw [if_neg (by linarith), if_neg (by rintro ⟨_, _⟩; linarith),
      if_neg (by rintro ⟨_, _⟩; linarith), if_pos h1]
  · norm_num [U_score]
  · norm_num [U_score]
  · norm_num [U_score]
  · intro q
    rw [U_score]
    split_ifs with h1 h2 h3 h4 <;> simp_all

/-- Witness for C1 at concrete inputs: a record with mean 10 and
uncertainty 1 has COV 10 and grade U2, and the grade boundaries evaluate
as claimed. -/
theorem claim_C1_witness :
    calc_COV (some 10) (some 1) = some (|1| / |10| * 100)
  ∧ U_score (some 3) = "U1"
  ∧ U_score (some 25) = "U3"
  ∧ U_score (some 26) = "U4" := by
  refine ⟨(claim_C1 (some 10) (some 1)).2.1 10 1 rfl rfl (by norm_num),
    (claim_C1 (some 10) (some 1)).2.2.2.1 3 (by norm_num),
    (claim_C1 (some 10) (some 1)).2.2.2.2.2.2.2.2.2.1,
    (claim_C1 (some 10) (some 1)).2.2.2.2.2.2.1 26 (by norm_num)⟩

/-! ## Records and domain lists (Combined_score.py) -/

/-- One heat-flow record after change_type: numeric columns hold
Option Rat (none is NaN), string columns hold lowercased strings. Only the
fields read by the scorers are carried. -/
structure HFRec where
  P12 : String
  C11 : String
  C13 : String
  C14 : String
  C15 : String
  C16 : String
  C17 : String
  C18 : String
  C19 : String
  C31 : String
  C32 : String
  C41 : String
  C42 : String
  C43 : String
  C44 : String
  C45 : String
  C1 : Option ℚ
  C2 : Option ℚ
  P6 : Option ℚ
  C4 : Option ℚ
  C5 : Option ℚ
  C6 : Option ℚ
  C23 : Option ℚ
  C37 : Option ℚ
  C47 : Option ℚ
deriving DecidableEq, Repr

/-- Record with every string field 'nan' (a missing cell after astype(str))
and every numeric field missing. -/
def blankRec : HFRec :=
  ⟨"nan", "nan", "nan", "nan", "nan", "nan", "nan", "nan", "nan", "nan",
   "nan", "nan", "nan", "nan", "nan", "nan",
   none, none, none, none, none, none, none, none, none⟩

/-- Borehole / mine domain values, list B of Combined_score.py. -/
def cB : List String :=
  ["[drilling]", "[drilling-clustering]", "[mining]", "[tunneling]"]

/-- Probe-sensing domain values, list P of Combined_score.py. -/
def cP : List String :=
  ["[probing (onshore/lake, river, etc.)]", "[probing (offshore/ocean)]",
   "[probing-clustering]"]

/-! ## Penalty selection machinery shared by the sub-scorers -/

/-- Outcome of one criterion inside a sub-scorer: the penalty added to the
running score, the undetermined flag, and the text appended to the error
message. -/
structure Contrib where
  pen : ℚ
  undet : Bool
  err : String
deriving DecidableEq, Repr

/-- Minimum combined with an optional running minimum. -/
def omin (q : ℚ) : Option ℚ → Option ℚ
  | none => some q
  | some m => some (min q m)

/-- Minimum penalty among the candidates of a decision table whose
condition holds; none when no candidate fires. -/
def minFired : List (Bool × ℚ) → Option ℚ
  | [] => none
  | (b, q) :: t => if b then omin q (minFired t) else minFired t

/-- Model of the source's least_penalty:
min((x for x in [p1,p2,p3,p4] if x is not None), default=0). -/
def leastPenalty (ps : List (Option ℚ)) : ℚ :=
  match ps.filterMap id with
  | [] => 0
  | x :: xs => xs.foldl min x

/-- Assemble a criterion outcome from the selected candidate list and the
undetermined flag of the source's if/elif chain, appending the criterion
code exactly when the chain fell through to its else branch. -/
def mkContrib (sel : List (Option ℚ) × Bool) (code : String) : Contrib :=
  ⟨leastPenalty sel.1, sel.2, if sel.2 then code else ""⟩

/-- Three-armed if/elif chain of the source: conditions in source order,
at most one candidate retained, else the undetermined flag. -/
def chain3 (c1 c2 c3 : Bool) (q1 q2 q3 : ℚ) : List (Option ℚ) × Bool :=
  if c1 then ([some q1], false)
  else if c2 then ([some q2], false)
  else if c3 then ([some q3], false)
  else ([], true)

/-- Four-armed if/elif chain of the source. -/
def chain4 (c1 c2 c3 c4 : Bool) (q1 q2 q3 q4 : ℚ) : List (Option ℚ) × Bool :=
  if c1 then ([some q1], false)
  else if c2 then ([some q2], false)
  else if c3 then ([some q3], false)
  else if c4 then ([some q4], false)
  else ([], true)

/-- Claim shape for one criterion: whenever some candidate of the decision
table fires, the criterion contributes exactly the minimum fired penalty
with no flag and no error text; whenever none fires, it contributes no
penalty, sets the undetermined flag and appends the criterion code. -/
def critOK (k : Contrib) (cands : List (Bool × ℚ)) (code : String) : Prop :=
  (∀ m : ℚ, minFired cands = some m → k = ⟨m, false, ""⟩)
  ∧ (minFired cands = none → k = ⟨0, true, code⟩)

theorem chain3_ok (c1 c2 c3 : Bool) (q1 q2 q3 : ℚ) (code : String)
    (h12 : q1 ≤ q2) (h13 : q1 ≤ q3) (h23 : q2 ≤ q3) :
    critOK (mkContrib (chain3 c1 c2 c3 q1 q2 q3) code)
      [(c1, q1), (c2, q2), (c3, q3)] code := by
  constructor
  · intro m hm
    cases c1 <;> cases c2 <;> cases c3 <;>
      simp [minFired, omin] at hm <;>
      simp [chain3, mkContrib, leastPenalty]
    all_goals first
      | exact hm
      | rw [← hm, min_eq_left (le_min h12 h13)]
      | rw [← hm, min_eq_left h12]
      | rw [← hm, min_eq_left h13]
      | rw [← hm, min_eq_left h23]
  · intro hm
    cases c1 <;> cases c2 <;> cases c3 <;>
      simp [minFired, omin] at hm <;>
      simp [chain3, mkContrib, leastPenalty]

theorem chain4_ok (c1 c2 c3 c4 : Bool) (q1 q2 q3 q4 : ℚ) (code : String)
    (h12 : q1 ≤ q2) (h13 : q1 ≤ q3) (h14 : q1 ≤ q4)
    (h23 : q2 ≤ q3) (h24 : q2 ≤ q4) (h34 : q3 ≤ q4) :
    critOK (mkContrib (chain4 c1 c2 c3 c4 q1 q2 q3 q4) code)
      [(c1, q1), (c2, q2), (c3, q3), (c4, q4)] code := by
  constructor
  · intro m hm
    cases c1 <;> cases c2 <;> cases c3 <;> cases c4 <;>
      simp [minFired, omin] at hm <;>
      simp [chain4, mkContrib, leastPenalty]
    all_goals rw [← hm]
    all_goals first
      | rfl
      | (repeat rw [min_def]
         split_ifs <;> linarith)
  · intro hm
    cases c1 <;> cases c2 <;> cases c3 <;> cases c4 <;>
      simp [minFired, omin] at hm <;>
      simp [chain4, mkContrib, leastPenalty]

/-! ## Option-valued comparisons (NaN-aware, as in the source) -/

/-- Value < b; false when the value is missing (NaN comparison). -/
def onLT (o : Option ℚ) (b : ℚ) : Bool :=
  match o with
  | some q => q < b
  | none => false

/-- Value <= b; false when missing. -/
def onLE (o : Option ℚ) (b : ℚ) : Bool :=
  match o with
  | some q => q ≤ b
  | none => false

/-- Value > b; false when missing. -/
def onGT (o : Option ℚ) (b : ℚ) : Bool :=
  match o with
  | some q => b < q
  | none => false

/-- Value >= b; false when missing. -/
def onGE (o : Option ℚ) (b : ℚ) : Bool :=
  match o with
  | some q => b ≤ q
  | none => false

/-- Absolute value, preserving missingness. -/
def oAbs (o : Option ℚ) : Option ℚ := o.map (fun q => |q|)

/-! ## Probe temperature-gradient scorer (ProbeT_score) -/

/-- Water depth band abs P6 < 1500, or P6 missing. -/
def p6b1 (r : HFRec) : Bool := onLT (oAbs r.P6) 1500 || r.P6.isNone

/-- Water depth band 1500 <= abs P6 <= 2500. -/
def p6b2 (r : HFRec) : Bool := onLE (oAbs r.P6) 2500 && onGE (oAbs r.P6) 1500

/-- Water depth band abs P6 > 2500, or C17 carries a corrected
water-temperature perturbation. -/
def p6b3 (r : HFRec) : Bool :=
  onGT (oAbs r.P6) 2500 || pyIn "[present and corrected]" r.C17

/-- Criterion P6 of ProbeT_score. -/
def probeT_P6c (r : HFRec) : Contrib :=
  mkContrib (chain3 (p6b1 r) (p6b2 r) (p6b3 r) (-0.2) (-0.1) 0) " P6,"

/-- Decision table of criterion P6, conditions as written in the source. -/
def probeT_P6_cands (r : HFRec) : List (Bool × ℚ) :=
  [(p6b1 r, -0.2), (p6b2 r, -0.1), (p6b3 r, 0)]

/-- Penetration depth band C6 < 1, or missing. -/
def c6b1 (r : HFRec) : Bool := onLT r.C6 1 || r.C6.isNone

/-- Penetration depth band 1 <= C6 <= 3. -/
def c6b2 (r : HFRec) : Bool := onGE r.C6 1 && onLE r.C6 3

/-- Penetration depth band 3 < C6 <= 10. -/
def c6b3 (r : HFRec) : Bool := onGT r.C6 3 && onLE r.C6 10

/-- Penetration depth band C6 > 10. -/
def c6b4 (r : HFRec) : Bool := onGT r.C6 10

/-- Criterion C6 of ProbeT_score. -/
def probeT_C6c (r : HFRec) : Contrib :=
  mkContrib (chain4 (c6b1 r) (c6b2 r) (c6b3 r) (c6b4 r) (-0.2) (-0.1) 0 0.1) " C6,"

/-- Decision table of criterion C6. -/
def probeT_C6_cands (r : HFRec) : List (Bool × ℚ) :=
  [(c6b1 r, -0.2), (c6b2 r, -0.1), (c6b3 r, 0), (c6b4 r, 0.1)]

/-- Tilt band C23 > 30, or missing. -/
def c23b1 (r : HFRec) : Bool := onGT r.C23 30 || r.C23.isNone

/-- Tilt band 10 < C23 <= 30. -/
def c23b2 (r : HFRec) : Bool := onGT r.C23 10 && onLE r.C23 30

/-- Tilt band 0 < C23 <= 10, or C12-style tilt correction noted in C11. -/
def c23b3 (r : HFRec) : Bool :=
  (onGT r.C23 0 && onLE r.C23 10) || pyIn "[tilt corrected]" r.C11

/-- Criterion C23 of ProbeT_score. -/
def probeT_C23c (r : HFRec) : Contrib :=
  mkContrib (chain3 (c23b1 r) (c23b2 r) (c23b3 r) (-0.2) (-0.1) 0) " C23,"

/-- Decision table of criterion C23. -/
def probeT_C23_cands (r : HFRec) : List (Bool × ℚ) :=
  [(c23b1 r, -0.2), (c23b2 r, -0.1), (c23b3 r, 0)]

/-- Temperature-point band C37 < 1, or missing. -/
def c37b1 (r : HFRec) : Bool := onLT r.C37 1 || r.C37.isNone

/-- Temperature-point band 1 <= C37 <= 3. -/
def c37b2 (r : HFRec) : Bool := onGE r.C37 1 && onLE r.C37 3

/-- Temperature-point band 3 < C37 <= 5. -/
def c37b3 (r : HFRec) : Bool := onGT r.C37 3 && onLE r.C37 5

/-- Temperature-point band C37 > 5. -/
def c37b4 (r : HFRec) : Bool := onGT r.C37 5

/-- Criterion C37 of ProbeT_score. -/
def probeT_C37c (r : HFRec) : Contrib :=
  mkContrib (chain4 (c37b1 r) (c37b2 r) (c37b3 r) (c37b4 r) (-0.2) (-0.1) 0 0.1) " C37,"

/-- Decision table of criterion C37. -/
def probeT_C37_cands (r : HFRec) : List (Bool × ℚ) :=
  [(c37b1 r, -0.2), (c37b2 r, -0.1), (c37b3 r, 0), (c37b4 r, 0.1)]

/-- Outcome of one sub-scorer for one record: score (none outside the
domain), undetermined flag, and accumulated error text. -/
structure SubScore where
  score : Option ℚ
  undet : Bool
  err : String
deriving DecidableEq, Repr

/-- ProbeT_score for one record: gate on P12 membership in P, base score
1.0, criteria applied in the source order P6, C6, C23, C37. -/
def ProbeT_res (r : HFRec) : SubScore :=
  if r.P12 ∈ cP then
    let k1 := probeT_P6c r
    let k2 := probeT_C6c r
    let k3 := probeT_C23c r
    let k4 := probeT_C37c r
    ⟨some (1 + k1.pen + k2.pen + k3.pen + k4.pen),
     k1.undet || k2.undet || k3.undet || k4.undet,
     k1.err ++ k2.err ++ k3.err ++ k4.err⟩
  else ⟨none, false, ""⟩

/-! ## Probe thermal-conductivity scorer (ProbeTC_score) -/

/-- Conductivity location from literature or unspecified. -/
def tc42b1 (r : HFRec) : Bool := pyIn "[literature/unspecified]" r.C42

/-- Conductivity location other than the heat-flow location. -/
def tc42b2 (r : HFRec) : Bool := pyIn "[other location]" r.C42

/-- Conductivity measured at the actual heat-flow location. -/
def tc42b3 (r : HFRec) : Bool := pyIn "[actual heat-flow location]" r.C42

/-- Criterion C42 of ProbeTC_score. -/
def probeTC_C42c (r : HFRec) : Contrib :=
  mkContrib (chain3 (tc42b1 r) (tc42b2 r) (tc42b3 r) (-0.2) (-0.1) 0) "C42, "

/-- Decision table of criterion C42 of ProbeTC_score. -/
def probeTC_C42_cands (r : HFRec) : List (Bool × ℚ) :=
  [(tc42b1 r, -0.2), (tc42b2 r, -0.1), (tc42b3 r, 0)]

/-- Laboratory method marker: C43 starts with the text fragment used by the
source. -/
def c43lab (r : HFRec) : Bool := pyStarts "[lab" r.C43

/-- Saturation states drawing the -0.2 laboratory penalty. -/
def labL1 : List String := ["[dry measured]", "[unspecified]", "[other (specify)]"]

/-- Saturation states drawing the 0 laboratory penalty. -/
def labL3 : List String := ["[saturated measured]", "[recovered]"]

/-- Estimation methods drawing the -0.2 penalty outside the laboratory
branch. -/
def estL : List String :=
  ["[unspecified]", "[estimation - from chlorine content]",
   "[estimation - from water content/porosity]",
   "[estimation - from mineral composition]"]

/-- Selection step of criterion C43: the laboratory branch keys on C44
with two separate if statements (so its fall-through sets no flag), the
other branches form an if/elif chain with a flagging else. -/
def probeTC_C43_sel (r : HFRec) : List (Option ℚ) × Bool :=
  if c43lab r then
    let p1 : Option ℚ := if r.C44 ∈ labL1 then some (-0.2) else none
    let p2 : Option ℚ :=
      if pyIn "[saturated calculated]" r.C44 then some (-0.1) else none
    let p3 : Option ℚ :=
      if pyIn "[saturated calculated]" r.C44 then none
      else if r.C44 ∈ labL3 then some 0 else none
    ([p1, p2, p3], false)
  else if r.C43 ∈ estL then ([some (-0.2)], false)
  else if pyIn "[estimation - from lithology and literature]" r.C43 then
    ([some (-0.1)], false)
  else if pyIn "[probe - pulse technique]" r.C43 then ([some 0.1], false)
  else ([], true)

/-- Criterion C43 of ProbeTC_score. -/
def probeTC_C43c (r : HFRec) : Contrib := mkContrib (probeTC_C43_sel r) "C43, "

/-- Full decision table of criterion C43, conditions as written in the
source (laboratory candidates guarded by the laboratory marker). -/
def probeTC_C43_cands (r : HFRec) : List (Bool × ℚ) :=
  [(c43lab r && decide (r.C44 ∈ labL1), -0.2),
   (c43lab r && pyIn "[saturated calculated]" r.C44, -0.1),
   (c43lab r && decide (r.C44 ∈ labL3), 0),
   (decide (r.C43 ∈ estL), -0.2),
   (pyIn "[estimation - from lithology and literature]" r.C43, -0.1),
   (pyIn "[probe - pulse technique]" r.C43, 0.1)]

/-- Laboratory part of the C43 decision table. -/
def probeTC_C43_labCands (r : HFRec) : List (Bool × ℚ) :=
  [(decide (r.C44 ∈ labL1), -0.2),
   (pyIn "[saturated calculated]" r.C44, -0.1),
   (decide (r.C44 ∈ labL3), 0)]

/-- Ambient-condition states drawing the -0.2 penalty on C45. -/
def c45L1 : List String :=
  ["[recorded ambient pt conditions]", "[unrecorded ambient pt conditions]",
   "[unspecified]"]

/-- Single-variable in-situ states drawing the -0.1 penalty on C45. -/
def c45L2 : List String :=
  ["[replicated in-situ (p)]", "[corrected in-situ (p)]",
   "[replicated in-situ (t)]", "[corrected in-situ (t)]"]

/-- Full in-situ states drawing the 0 penalty on C45. -/
def c45L3 : List String := ["[replicated in-situ (pt)]", "[corrected in-situ (pt)]"]

/-- C45 band with actual in-situ conditions under the pulse technique. -/
def tc45b4 (r : HFRec) : Bool :=
  pyIn "[actual in-situ (pt) conditions]" r.C45 &&
    pyIn "[probe - pulse technique]" r.C43

/-- Criterion C45 of ProbeTC_score. -/
def probeTC_C45c (r : HFRec) : Contrib :=
  mkContrib
    (chain4 (decide (r.C45 ∈ c45L1)) (decide (r.C45 ∈ c45L2))
      (decide (r.C45 ∈ c45L3)) (tc45b4 r) (-0.2) (-0.1) 0 0.1) "C45, "

/-- Decision table of criterion C45 of ProbeTC_score. -/
def probeTC_C45_cands (r : HFRec) : List (Bool × ℚ) :=
  [(decide (r.C45 ∈ c45L1), -0.2), (decide (r.C45 ∈ c45L2), -0.1),
   (decide (r.C45 ∈ c45L3), 0), (tc45b4 r, 0.1)]

/-- Sample-count band 0 <= C47 <= 1 or missing, when the location is not
literature/unspecified. -/
def tc47b1 (r : HFRec) : Bool :=
  !(pyIn "[literature/unspecified]" r.C42) &&
    ((onGE r.C47 0 && onLE r.C47 1) || r.C47.isNone)

/-- Sample-count band 2 <= C47 <= 3, same location condition. -/
def tc47b2 (r : HFRec) : Bool :=
  !(pyIn "[literature/unspecified]" r.C42) && (onGE r.C47 2 && onLE r.C47 3)

/-- Sample-count band C47 > 3, same location condition. -/
def tc47b3 (r : HFRec) : Bool :=
  !(pyIn "[literature/unspecified]" r.C42) && onGT r.C47 3

/-- Criterion C47 of ProbeTC_score. -/
def probeTC_C47c (r : HFRec) : Contrib :=
  mkContrib (chain3 (tc47b1 r) (tc47b2 r) (tc47b3 r) (-0.2) (-0.1) 0) "C47, "

/-- Decision table of criterion C47 of ProbeTC_score. -/
def probeTC_C47_cands (r : HFRec) : List (Bool × ℚ) :=
  [(tc47b1 r, -0.2), (tc47b2 r, -0.1), (tc47b3 r, 0)]

/-- ProbeTC_score for one record: gate on P12 membership in P, base score
1.0, criteria applied in the source order C42, C43, C45, C47. -/
def ProbeTC_res (r : HFRec) : SubScore :=
  if r.P12 ∈ cP then
    let k1 := probeTC_C42c r
    let k2 := probeTC_C43c r
    let k3 := probeTC_C45c r
    let k4 := probeTC_C47c r
    ⟨some (1 + k1.pen + k2.pen + k3.pen + k4.pen),
     k1.undet || k2.undet || k3.undet || k4.undet,
     k1.err ++ k2.err ++ k3.err ++ k4.err⟩
  else ⟨none, false, ""⟩

/-! ## Borehole/mine temperature-gradient scorer (Bore_t_M_score) -/

/-- Model of the Python expression a or b on strings: the first operand
unless it is empty (falsy). -/
def pyOrS (a b : String) : String := if a = "" then b else a

/-- Temperature-method codes accepted alongside a surface C31 value. -/
def btSurL : List String :=
  ["[cpd]", "[xen]", "[gtm]", "[bsr]", "[bht]", "[dst]", "[rtdpert]",
   "[cbht]", "[cdst]", "[rtdeq]", "[rtdc]", "[oddt-pc]", "[oddt-tp]"]

/-- Surface-branch codes drawing -0.6. -/
def btSur1 : List String := ["[cpd]", "[xen]", "[gtm]", "[bsr]"]

/-- Surface-branch codes drawing -0.5. -/
def btSur2 : List String := ["[bht]", "[dst]", "[rtdpert]"]

/-- Surface-branch codes drawing -0.3. -/
def btSur3 : List String :=
  ["[cbht]", "[cdst]", "[rtdeq]", "[rtdc]", "[oddt-pc]", "[oddt-tp]"]

/-- Log-type codes of the many-points branch. -/
def btLogL : List String := ["[logpert]", "[logeq]", "[clog]", "[dtseq]", "[cdts]"]

/-- Equilibrium log codes drawing +0.1 in the many-points branch. -/
def btLog2 : List String := ["[logeq]", "[clog]", "[dtseq]", "[cdts]"]

/-- Codes of the mid-points branch (the duplicate dst of the source list is
kept). -/
def btMidL : List String :=
  ["[cpd]", "[xen]", "[gtm]", "[bsr]", "[logpert]", "[dtspert]", "[bht]",
   "[dst]", "[rtdpert]", "[blk]", "[logeq]", "[clog]", "[dtseq]", "[cdts]",
   "[cbht]", "[dst]", "[rtdeq]", "[rtdc]", "[oddt-pc]", "[oddt-tp]"]

/-- Mid-points codes drawing -0.5. -/
def btMid1 : List String := ["[cpd]", "[xen]", "[gtm]", "[bsr]"]

/-- Mid-points codes drawing -0.3. -/
def btMid2 : List String :=
  ["[logpert]", "[dtspert]", "[bht]", "[dst]", "[rtdpert]", "[blk]"]

/-- Mid-points codes drawing -0.1. -/
def btMid3 : List String :=
  ["[logeq]", "[clog]", "[dtseq]", "[cdts]", "[cbht]", "[dst]", "[rtdeq]",
   "[rtdc]", "[oddt-pc]", "[oddt-tp]"]

/-- Bore_t_M_score for one record: gate on P12 membership in B, a single
multi-way branch on C31 / C32 / C37 where the cross-field reads of the
second and third branch go through the Python expression
(C31 or C32), then base score 1.0 plus the least selected penalty. -/
def Bore_t_res (r : HFRec) : SubScore :=
  if r.P12 ∈ cB then
    let u := pyOrS r.C31 r.C32
    let sel : (List (Option ℚ) × Bool) × String :=
      if r.C31 = "[sur]" ∧ r.C32 ∈ btSurL then
        if r.C32 ∈ btSur1 then (([some (-0.6)], false), "")
        else if r.C32 ∈ btSur2 then (([some (-0.5)], false), "")
        else if r.C32 ∈ btSur3 then (([some (-0.3)], false), "")
        else (([], true), "C32")
      else if onGT r.C37 15 = true ∧ u ∈ btLogL then
        if pyIn "[logpert]" u then (([some (-0.1)], false), "")
        else if u ∈ btLog2 then (([some 0.1], false), "")
        else (([], true), "C31 or C32")
      else if (onLT r.C37 15 && onGT r.C37 2) = true ∧ u ∈ btMidL then
        if u ∈ btMid1 then (([some (-0.5)], false), "")
        else if u ∈ btMid2 then (([some (-0.3)], false), "")
        else if u ∈ btMid3 then (([some (-0.1)], false), "")
        else (([], true), "C31 or C32")
      else (([some (-0.6)], false), "")
    ⟨some (1 + leastPenalty sel.1.1), sel.1.2, sel.2⟩
  else ⟨none, false, ""⟩

/-! ## Borehole/mine thermal-conductivity scorer (Bore_tc_M_score) -/

/-- Model of the Python expression a or b on float cells: the first operand
unless it equals 0.0 (nan is truthy). The source compares the result
against the missing-value marker with an identity test. -/
def pyOrF (a b : Option ℚ) : Option ℚ := if a = some 0 then b else a

/-- Source types drawing -0.2 on C41. -/
def bc41L1 : List String :=
  ["[mineral computation]", "[assumed from literature]", "[other (specify)]",
   "[unspecified]"]

/-- Source types drawing -0.1 on C41. -/
def bc41L2 : List String :=
  ["[cutting samples]", "[outcrop samples]", "[well-log interpretation]"]

/-- Source types drawing +0.1 on C41. -/
def bc41L4 : List String := ["[in-situ probe]", "[core-log integration]"]

/-- Criterion C41 of Bore_tc_M_score. -/
def boreTC_C41c (r : HFRec) : Contrib :=
  mkContrib
    (chain4 (decide (r.C41 ∈ bc41L1)) (decide (r.C41 ∈ bc41L2))
      (pyIn "[core samples]" r.C41) (decide (r.C41 ∈ bc41L4))
      (-0.2) (-0.1) 0 0.1) " C41,"

/-- Decision table of criterion C41. -/
def boreTC_C41_cands (r : HFRec) : List (Bool × ℚ) :=
  [(decide (r.C41 ∈ bc41L1), -0.2), (decide (r.C41 ∈ bc41L2), -0.1),
   (pyIn "[core samples]" r.C41, 0), (decide (r.C41 ∈ bc41L4), 0.1)]

/-- Criterion C42 of Bore_tc_M_score (non-early-exit branch); same bands as
the probe variant but with the borehole error format. -/
def boreTC_C42c (r : HFRec) : Contrib :=
  mkContrib (chain3 (tc42b1 r) (tc42b2 r) (tc42b3 r) (-0.2) (-0.1) 0) " C42,"

/-- Decision table of criterion C42 of Bore_tc_M_score. -/
def boreTC_C42_cands (r : HFRec) : List (Bool × ℚ) :=
  [(tc42b1 r, -0.2), (tc42b2 r, -0.1), (tc42b3 r, 0)]

/-- Saturation states drawing -0.2 on C44 (borehole variant). -/
def bc44L1 : List String := ["[dry measured]", "[unspecified]", "[other (specify)]"]

/-- Saturation states drawing -0.1 on C44 (borehole variant). -/
def bc44L2 : List String := ["[recovered]", "[saturated calculated]"]

/-- Saturation states drawing 0 on C44 (borehole variant). -/
def bc44L3 : List String := ["[saturated measured in-situ]", "[saturated measured]"]

/-- Criterion C44 of Bore_tc_M_score. -/
def boreTC_C44c (r : HFRec) : Contrib :=
  mkContrib
    (chain3 (decide (r.C44 ∈ bc44L1)) (decide (r.C44 ∈ bc44L2))
      (decide (r.C44 ∈ bc44L3)) (-0.2) (-0.1) 0) " C44,"

/-- Decision table of criterion C44 of Bore_tc_M_score. -/
def boreTC_C44_cands (r : HFRec) : List (Bool × ℚ) :=
  [(decide (r.C44 ∈ bc44L1), -0.2), (decide (r.C44 ∈ bc44L2), -0.1),
   (decide (r.C44 ∈ bc44L3), 0)]

/-- Pressure-temperature states drawing 0 on C45 (borehole variant: the
actual in-situ state joins the full in-situ band unconditionally). -/
def bc45L3 : List String :=
  ["[actual in-situ (pt) conditions]", "[replicated in-situ (pt)]",
   "[corrected in-situ (pt)]"]

/-- Criterion C45 of Bore_tc_M_score. -/
def boreTC_C45c (r : HFRec) : Contrib :=
  mkContrib
    (chain3 (decide (r.C45 ∈ c45L1)) (decide (r.C45 ∈ c45L2))
      (decide (r.C45 ∈ bc45L3)) (-0.2) (-0.1) 0) " C45,"

/-- Decision table of criterion C45 of Bore_tc_M_score. -/
def boreTC_C45_cands (r : HFRec) : List (Bool × ℚ) :=
  [(decide (r.C45 ∈ c45L1), -0.2), (decide (r.C45 ∈ c45L2), -0.1),
   (decide (r.C45 ∈ bc45L3), 0)]

/-- Sample-count band: literature/unspecified location. -/
def bc47b1 (r : HFRec) : Bool := pyIn "[literature/unspecified]" r.C42

/-- Sample-count band: located, with C47 missing or 1 <= C47 <= 15. -/
def bc47b2 (r : HFRec) : Bool :=
  !(pyIn "[literature/unspecified]" r.C42) &&
    (r.C47.isNone || (onGE r.C47 1 && onLE r.C47 15))

/-- Sample-count band: located with C47 > 15. -/
def bc47b3 (r : HFRec) : Bool :=
  !(pyIn "[literature/unspecified]" r.C42) && onGT r.C47 15

/-- Criterion C47 of Bore_tc_M_score (the first two source branches both
assign the -0.1 penalty). -/
def boreTC_C47c (r : HFRec) : Contrib :=
  mkContrib (chain3 (bc47b1 r) (bc47b2 r) (bc47b3 r) (-0.1) (-0.1) 0) " C47,"

/-- Decision table of criterion C47 of Bore_tc_M_score. -/
def boreTC_C47_cands (r : HFRec) : List (Bool × ℚ) :=
  [(bc47b1 r, -0.1), (bc47b2 r, -0.1), (bc47b3 r, 0)]

/-- Bore_tc_M_score for one record: gate on P12 membership in B, criteria
in the source loop order C41, C42, C44, C45, C47, with the source's early
exit at C42 overriding the score with 0.1 and skipping the remaining
criteria when the Python value (C4 or C5) is the missing marker. -/
def Bore_tc_res (r : HFRec) : SubScore :=
  if r.P12 ∈ cB then
    let k41 := boreTC_C41c r
    if pyOrF r.C4 r.C5 = none then ⟨some 0.1, k41.undet, k41.err⟩
    else
      let k42 := boreTC_C42c r
      let k44 := boreTC_C44c r
      let k45 := boreTC_C45c r
      let k47 := boreTC_C47c r
      ⟨some (1 + k41.pen + k42.pen + k44.pen + k45.pen + k47.pen),
       k41.undet || k42.undet || k44.undet || k45.undet || k47.undet,
       k41.err ++ k42.err ++ k44.err ++ k45.err ++ k47.err⟩
  else ⟨none, false, ""⟩

/-! ## Merging, quality product, M score, P flags (Combined_score.py) -/

/-- Result of merge_Tscore for one record: the domain-matching pair of
sub-scores, the merged undetermined flag and the merged error text. -/
structure MergedScore where
  t : Option ℚ
  tc : Option ℚ
  x : Bool
  err : String
deriving DecidableEq, Repr

/-- merge_Tscore for one record: probe rows take the probe pair, borehole
rows the borehole pair, all other rows keep NaN scores, a false flag and an
empty error. -/
def merge_rec (r : HFRec) : MergedScore :=
  if r.P12 ∈ cP then
    let pt := ProbeT_res r
    let ptc := ProbeTC_res r
    ⟨pt.score, ptc.score, pt.undet || ptc.undet, pt.err ++ ptc.err⟩
  else if r.P12 ∈ cB then
    let bt := Bore_t_res r
    let btc := Bore_tc_res r
    ⟨bt.score, btc.score, bt.undet || btc.undet, bt.err ++ btc.err⟩
  else ⟨none, none, false, ""⟩

/-- T_quality for one record: the product of the sub-scores, or the defined
one when the other is NaN, or NaN when both are. -/
def T_quality (t tc : Option ℚ) : Option ℚ :=
  match t with
  | none => tc
  | some a =>
    match tc with
    | none => some a
    | some b => some (a * b)

/-- M_score for one record: the source's comparison chain on T_Quality
(every comparison is false on NaN, so an undefined product falls through
to Mx), with the indeterminate suffix when either sub-score is NaN or the
undetermined flag is set. -/
def M_score (q t tc : Option ℚ) (x : Bool) : String :=
  let indet : Bool := tc.isNone || t.isNone || x
  match q with
  | some v =>
    if 0.75 ≤ v ∧ v < 1.5 then if indet then "M1x" else "M1"
    else if 0.5 ≤ v ∧ v < 0.75 then if indet then "M2x" else "M2"
    else if 0.25 ≤ v ∧ v < 0.5 then if indet then "M3x" else "M3"
    else if 0 ≤ v ∧ v < 0.25 then if indet then "M4x" else "M4"
    else "Mx"
  | none => "Mx"

/-- Flag character of p_flag for one perturbation field: the substring
tests of the source, in source order, with the phenomenon letters passed
in. -/
def pflagChar (up low : Char) (v : String) : Char :=
  if pyIn "[present and corrected]" v then up
  else if pyIn "[present and not corrected]" v then low
  else if pyIn "[present not significant]" v then 'X'
  else if pyIn "[not recognised]" v || pyIn "[not recognized]" v then 'x'
  else '-'

/-- p_flag for one record: the seven phenomenon fields C13 to C19 in the
fixed source order. -/
def p_flag (r : HFRec) : String :=
  String.mk
    [pflagChar 'S' 's' r.C13, pflagChar 'E' 'e' r.C14,
     pflagChar 'T' 't' r.C15, pflagChar 'P' 'p' r.C16,
     pflagChar 'V' 'v' r.C17, pflagChar 'C' 'c' r.C18,
     pflagChar 'R' 'r' r.C19]

/-- String-column lowering of change_type: every string field of the record
is lowercased (the numeric fields were already coerced). -/
def lowerRec (r : HFRec) : HFRec :=
  { r with
    P12 := pyLower r.P12, C11 := pyLower r.C11, C13 := pyLower r.C13,
    C14 := pyLower r.C14, C15 := pyLower r.C15, C16 := pyLower r.C16,
    C17 := pyLower r.C17, C18 := pyLower r.C18, C19 := pyLower r.C19,
    C31 := pyLower r.C31, C32 := pyLower r.C32, C41 := pyLower r.C41,
    C42 := pyLower r.C42, C43 := pyLower r.C43, C44 := pyLower r.C44,
    C45 := pyLower r.C45 }

/-- complete_PFlag_calc for one record: p_flag after the change_type
lowering. -/
def complete_PFlag (r : HFRec) : String := p_flag (lowerRec r)

/-- combined_score for one record: the U score, M score, P flags and their
concatenation U ++ M ++ "." ++ P, computed on the change_type-normalized
record. -/
def score_rec (raw : HFRec) : String × String × String × String :=
  let r := lowerRec raw
  let u := U_score (calc_COV r.C1 r.C2)
  let m := merge_rec r
  let q := T_quality m.t m.tc
  let ms := M_score q m.t m.tc m.x
  let p := p_flag r
  (u, ms, p, u ++ ms ++ "." ++ p)

/-! ## Claim C2: least-penalty selection in the per-criterion sub-scorers -/

theorem c43_nonlab_ok (r : HFRec) (h : c43lab r = false) :
    critOK (probeTC_C43c r) (probeTC_C43_cands r) "C43, " := by
  constructor
  · intro m hm
    by_cases he1 : r.C43 ∈ estL <;>
      rcases he2 : pyIn "[estimation - from lithology and literature]" r.C43 <;>
      rcases he3 : pyIn "[probe - pulse technique]" r.C43 <;>
      simp [probeTC_C43_cands, h, he1, he2, he3, minFired, omin] at hm <;>
      simp [probeTC_C43c, probeTC_C43_sel, mkContrib, h, he1, he2, he3,
        leastPenalty]
    all_goals rw [← hm]
    all_goals first
      | rfl
      | norm_num [min_def]
  · intro hm
    by_cases he1 : r.C43 ∈ estL <;>
      rcases he2 : pyIn "[estimation - from lithology and literature]" r.C43 <;>
      rcases he3 : pyIn "[probe - pulse technique]" r.C43 <;>
      simp [probeTC_C43_cands, h, he1, he2, he3, minFired, omin] at hm <;>
      simp [probeTC_C43c, probeTC_C43_sel, mkContrib, h, he1, he2, he3,
        leastPenalty]

theorem c43_lab_ok (r : HFRec) (h : c43lab r = true) :
    (∀ m : ℚ, minFired (probeTC_C43_labCands r) = some m →
      probeTC_C43c r = ⟨m, false, ""⟩)
    ∧ (minFired (probeTC_C43_labCands r) = none →
      probeTC_C43c r = ⟨0, false, ""⟩) := by
  constructor
  · intro m hm
    by_cases hb1 : r.C44 ∈ labL1 <;>
      rcases hb2 : pyIn "[saturated calculated]" r.C44 <;>
      by_cases hb3 : r.C44 ∈ labL3 <;>
      simp [probeTC_C43_labCands, hb1, hb2, hb3, minFired, omin] at hm <;>
      simp [probeTC_C43c, probeTC_C43_sel, mkContrib, h, hb1, hb2, hb3,
        leastPenalty]
    all_goals rw [← hm]
    all_goals first
      | rfl
      | norm_num [min_def]
  · intro hm
    by_cases hb1 : r.C44 ∈ labL1 <;>
      rcases hb2 : pyIn "[saturated calculated]" r.C44 <;>
      by_cases hb3 : r.C44 ∈ labL3 <;>
      simp [probeTC_C43_labCands, hb1, hb2, hb3, minFired, omin] at hm <;>
      simp [probeTC_C43c, probeTC_C43_sel, mkContrib, h, hb1, hb2, hb3,
        leastPenalty]

/-- C2 (amended): in the probe temperature-gradient, probe
thermal-conductivity and borehole/mine thermal-conductivity sub-scorers,
every criterion contributes the minimum of the candidate penalties that
fire, and when none fires it contributes no penalty, sets the undetermined
flag and appends its field code — except the laboratory sub-case of the
probe conductivity-method criterion C43, where only the laboratory
saturation candidates are consulted and a fall-through adds 0 silently,
and except the borehole conductivity early exit, which overrides the score
with 0.1 when both supporting depth fields C4 and C5 are missing. -/
theorem claim_C2_amended : ∀ r : HFRec,
    critOK (probeT_P6c r) (probeT_P6_cands r) " P6,"
  ∧ critOK (probeT_C6c r) (probeT_C6_cands r) " C6,"
  ∧ critOK (probeT_C23c r) (probeT_C23_cands r) " C23,"
  ∧ critOK (probeT_C37c r) (probeT_C37_cands r) " C37,"
  ∧ critOK (probeTC_C42c r) (probeTC_C42_cands r) "C42, "
  ∧ (c43lab r = false → critOK (probeTC_C43c r) (probeTC_C43_cands r) "C43, ")
  ∧ (c43lab r = true →
      (∀ m : ℚ, minFired (probeTC_C43_labCands r) = some m →
        probeTC_C43c r = ⟨m, false, ""⟩)
      ∧ (minFired (probeTC_C43_labCands r) = none →
        probeTC_C43c r = ⟨0, false, ""⟩))
  ∧ critOK (probeTC_C45c r) (probeTC_C45_cands r) "C45, "
  ∧ critOK (probeTC_C47c r) (probeTC_C47_cands r) "C47, "
  ∧ critOK (boreTC_C41c r) (boreTC_C41_cands r) " C41,"
  ∧ critOK (boreTC_C42c r) (boreTC_C42_cands r) " C42,"
  ∧ critOK (boreTC_C44c r) (boreTC_C44_cands r) " C44,"
  ∧ critOK (boreTC_C45c r) (boreTC_C45_cands r) " C45,"
  ∧ critOK (boreTC_C47c r) (boreTC_C47_cands r) " C47,"
  ∧ (r.P12 ∈ cB → pyOrF r.C4 r.C5 = none →
      (Bore_tc_res r).score = some 0.1) := by
  intro r
  refine ⟨?_, ?_, ?_, ?_, ?_, c43_nonlab_ok r, c43_lab_ok r, ?_, ?_, ?_, ?_,
    ?_, ?_, ?_, ?_⟩
  · exact chain3_ok (p6b1 r) (p6b2 r) (p6b3 r) (-0.2) (-0.1) 0 " P6,"
      (by norm_num) (by norm_num) (by norm_num)
  · exact chain4_ok (c6b1 r) (c6b2 r) (c6b3 r) (c6b4 r) (-0.2) (-0.1) 0 0.1
      " C6," (by norm_num) (by norm_num) (by norm_num) (by norm_num)
      (by norm_num) (by norm_num)
  · exact chain3_ok (c23b1 r) (c23b2 r) (c23b3 r) (-0.2) (-0.1) 0 " C23,"
      (by norm_num) (by norm_num) (by norm_num)
  · exact chain4_ok (c37b1 r) (c37b2 r) (c37b3 r) (c37b4 r) (-0.2) (-0.1) 0 0.1
      " C37," (by norm_num) (by norm_num) (by norm_num) (by norm_num)
      (by norm_num) (by norm_num)
  · exact chain3_ok (tc42b1 r) (tc42b2 r) (tc42b3 r) (-0.2) (-0.1) 0 "C42, "
      (by norm_num) (by norm_num) (by norm_num)
  · exact chain4_ok (decide (r.C45 ∈ c45L1)) (decide (r.C45 ∈ c45L2))
      (decide (r.C45 ∈ c45L3)) (tc45b4 r) (-0.2) (-0.1) 0 0.1 "C45, "
      (by norm_num) (by norm_num) (by norm_num) (by norm_num) (by norm_num)
      (by norm_num)
  · exact chain3_ok (tc47b1 r) (tc47b2 r) (tc47b3 r) (-0.2) (-0.1) 0 "C47, "
      (by norm_num) (by norm_num) (by norm_num)
  · exact chain4_ok (decide (r.C41 ∈ bc41L1)) (decide (r.C41 ∈ bc41L2))
      (pyIn "[core samples]" r.C41) (decide (r.C41 ∈ bc41L4))
      (-0.2) (-0.1) 0 0.1 " C41," (by norm_num) (by norm_num) (by norm_num)
      (by norm_num) (by norm_num) (by norm_num)
  · exact chain3_ok (tc42b1 r) (tc42b2 r) (tc42b3 r) (-0.2) (-0.1) 0 " C42,"
      (by norm_num) (by norm_num) (by norm_num)
  · exact chain3_ok (decide (r.C44 ∈ bc44L1)) (decide (r.C44 ∈ bc44L2))
      (decide (r.C44 ∈ bc44L3)) (-0.2) (-0.1) 0 " C44," (by norm_num)
      (by norm_num) (by norm_num)
  · exact chain3_ok (decide (r.C45 ∈ c45L1)) (decide (r.C45 ∈ c45L2))
      (decide (r.C45 ∈ bc45L3)) (-0.2) (-0.1) 0 " C45," (by norm_num)
      (by norm_num) (by norm_num)
  · exact chain3_ok (bc47b1 r) (bc47b2 r) (bc47b3 r) (-0.1) (-0.1) 0 " C47,"
      (by norm_num) (by norm_num) (by norm_num)
  · intro h1 h2
    simp [Bore_tc_res, h1, h2]

/-- Record exercising the laboratory hole of criterion C43: a probe record
whose conductivity method is a laboratory method but whose saturation state
matches no laboratory candidate; every other criterion fires normally. -/
def labHoleRec : HFRec :=
  { blankRec with
    P12 := "[probing (offshore/ocean)]",
    C42 := "[actual heat-flow location]",
    C43 := "[lab - point source]",
    C44 := "nan",
    C45 := "[replicated in-situ (pt)]",
    C47 := some 5 }

/-- C2 (counterexample): on labHoleRec, no candidate of the C43 decision
table fires, yet the undetermined flag stays false and the error text stays
empty — for the criterion and for the whole probe conductivity sub-scorer —
contradicting the claim that an undetermined criterion always flags the
record and appends its field code. -/
theorem claim_C2_counterexample :
    minFired (probeTC_C43_cands labHoleRec) = none
  ∧ minFired (probeTC_C43_labCands labHoleRec) = none
  ∧ probeTC_C43c labHoleRec = ⟨0, false, ""⟩
  ∧ (ProbeTC_res labHoleRec).undet = false
  ∧ (ProbeTC_res labHoleRec).err = "" := by
  refine ⟨by decide, by decide, by decide, by decide, by decide⟩

/-- Record whose conductivity sample count fires the zero-penalty band of
the borehole C47 criterion. -/
def c47WitRec : HFRec :=
  { blankRec with C42 := "[actual heat-flow location]", C47 := some 20 }

/-- Witness for C2: applying the amended theorem at c47WitRec, where the
C47 decision table fires with minimum penalty 0, yields exactly that
contribution with no flag and no error text. -/
theorem claim_C2_witness :
    boreTC_C47c c47WitRec = ⟨0, false, ""⟩
  ∧ minFired (boreTC_C47_cands c47WitRec) = some 0 :=
  ⟨(claim_C2_amended
      c47WitRec).2.2.2.2.2.2.2.2.2.2.2.2.2.1.1 0 (by decide), by decide⟩

/-! ## Claims C3 and C4: methodology grade and quality product -/

/-- Modelled from the claim's words for comparison with M_score: the grade
is derived from the quality product by half-open intervals evaluated
top-down, anything else (an undefined product included) gives Mx, and a
grade M1 to M4 carries the indeterminate suffix exactly when the given
indeterminacy condition holds. -/
def M_grade_spec (q : Option ℚ) (indet : Bool) : String :=
  match q with
  | some v =>
    if 0.75 ≤ v ∧ v < 1.5 then "M1" ++ (if indet then "x" else "")
    else if 0.5 ≤ v ∧ v < 0.75 then "M2" ++ (if indet then "x" else "")
    else if 0.25 ≤ v ∧ v < 0.5 then "M3" ++ (if indet then "x" else "")
    else if 0 ≤ v ∧ v < 0.25 then "M4" ++ (if indet then "x" else "")
    else "Mx"
  | none => "Mx"

theorem M_score_eq_spec (q t tc : Option ℚ) (x : Bool) :
    M_score q t tc x = M_grade_spec q (tc.isNone || t.isNone || x) := by
  rcases q with _ | v
  · rfl
  · rcases hb : (tc.isNone || t.isNone || x) <;>
      simp [M_score, M_grade_spec, hb]

/-- C3: the methodology grade of every record follows the half-open
interval table on the quality product with Mx for everything else
(undefined product included), and a grade M1 to M4 carries the x suffix
exactly when a sub-score is undefined or a criterion was flagged
undetermined; the boundary products 0.75, 0.749999, 0.25 and 0 grade as
M1, M2, M3 and M4. -/
theorem claim_C3 : ∀ (q t tc : Option ℚ) (x : Bool),
    M_score q t tc x = M_grade_spec q (tc.isNone || t.isNone || x)
  ∧ (∀ v : ℚ, 0 ≤ v → v < 1.5 →
      (M_score (some v) t tc x ∈ (["M1x", "M2x", "M3x", "M4x"] : List String)
        ↔ (tc.isNone || t.isNone || x) = true))
  ∧ M_score (some 0.75) (some 1) (some 0.75) false = "M1"
  ∧ M_score (some 0.749999) (some 1) (some 0.749999) false = "M2"
  ∧ M_score (some 0.25) (some 1) (some 0.25) false = "M3"
  ∧ M_score (some 0) (some 0) (some 1) false = "M4"
  ∧ M_score none t tc x = "Mx"
  ∧ (∀ v : ℚ, v < 0 → M_score (some v) t tc x = "Mx")
  ∧ (∀ v : ℚ, 1.5 ≤ v → M_score (some v) t tc x = "Mx") := by
  intro q t tc x
  have tail : ∀ v : ℚ, 0 ≤ v → v < 1.5 → ¬(0.75 ≤ v ∧ v < 1.5) →
      ¬(0.5 ≤ v ∧ v < 0.75) → ¬(0.25 ≤ v ∧ v < 0.5) →
      ¬(0 ≤ v ∧ v < 0.25) → False := by
    intro v h0 h15 h1 h2 h3 h4
    have a1 : v < 0.75 := by
      by_contra hc; push_neg at hc; exact h1 ⟨hc, h15⟩
    have a2 : v < 0.5 := by
      by_contra hc; push_neg at hc; exact h2 ⟨hc, a1⟩
    have a3 : v < 0.25 := by
      by_contra hc; push_neg at hc; exact h3 ⟨hc, a2⟩
    exact h4 ⟨h0, a3⟩
  refine ⟨M_score_eq_spec q t tc x, ?_, by norm_num [M_score],
    by norm_num [M_score], by norm_num [M_score], by norm_num [M_score],
    rfl, ?_, ?_⟩
  · intro v h0 h15
    rw [M_score_eq_spec]
    by_cases h1 : 0.75 ≤ v ∧ v < 1.5
    · simp only [M_grade_spec, if_pos h1]
      rcases hb : (tc.isNone || t.isNone || x) <;> decide
    · by_cases h2 : 0.5 ≤ v ∧ v < 0.75
      · simp only [M_grade_spec, if_neg h1, if_pos h2]
        rcases hb : (tc.isNone || t.isNone || x) <;> decide
      · by_cases h3 : 0.25 ≤ v ∧ v < 0.5
        · simp only [M_grade_spec, if_neg h1, if_neg h2, if_pos h3]
          rcases hb : (tc.isNone || t.isNone || x) <;> decide
        · by_cases h4 : 0 ≤ v ∧ v < 0.25
          · simp only [M_grade_spec, if_neg h1, if_neg h2, if_neg h3, if_pos h4]
            rcases hb : (tc.isNone || t.isNone || x) <;> decide
          · exact (tail v h0 h15 h1 h2 h3 h4).elim
  · intro v hv
    rw [M_score]
    rw [if_neg (by rintro ⟨h, _⟩; linarith), if_neg (by rintro ⟨h, _⟩; linarith),
      if_neg (by rintro ⟨h, _⟩; linarith), if_neg (by rintro ⟨h, _⟩; linarith)]
  · intro v hv
    rw [M_score]
    rw [if_neg (by rintro ⟨_, h⟩; linarith), if_neg (by rintro ⟨_, h⟩; linarith),
      if_neg (by rintro ⟨_, h⟩; linarith), if_neg (by rintro ⟨_, h⟩; linarith)]

/-- C4: the quality product is the product of the two sub-scores when both
are defined, equals the defined one when exactly one is defined, and is
undefined when neither is, in which case the methodology grade is Mx. -/
theorem claim_C4 : ∀ (a b : ℚ) (x : Bool),
    T_quality (some a) (some b) = some (a * b)
  ∧ T_quality (some a) none = some a
  ∧ T_quality none (some b) = some b
  ∧ T_quality none none = none
  ∧ M_score (T_quality none none) none none x = "Mx" := by
  intro a b x
  exact ⟨rfl, rfl, rfl, rfl, rfl⟩

/-! ## Claim C6: perturbation flag encoder -/

/-- C6: the encoder always produces exactly seven characters, one per field
C13 to C19 in that fixed order; after the case-normalizing lowering each
value maps by the fixed precedence to the phenomenon's uppercase letter,
its lowercase letter, X, x, or the dash for everything else (so the encoder
is total and insensitive to the letter case of its input). -/
theorem claim_C6 : ∀ r : HFRec,
    (complete_PFlag r).length = 7
  ∧ complete_PFlag r = String.mk
      [pflagChar 'S' 's' (pyLower r.C13), pflagChar 'E' 'e' (pyLower r.C14),
       pflagChar 'T' 't' (pyLower r.C15), pflagChar 'P' 'p' (pyLower r.C16),
       pflagChar 'V' 'v' (pyLower r.C17), pflagChar 'C' 'c' (pyLower r.C18),
       pflagChar 'R' 'r' (pyLower r.C19)]
  ∧ (∀ r' : HFRec, pyLower r.C13 = pyLower r'.C13 →
      pyLower r.C14 = pyLower r'.C14 → pyLower r.C15 = pyLower r'.C15 →
      pyLower r.C16 = pyLower r'.C16 → pyLower r.C17 = pyLower r'.C17 →
      pyLower r.C18 = pyLower r'.C18 → pyLower r.C19 = pyLower r'.C19 →
      complete_PFlag r = complete_PFlag r')
  ∧ (∀ (up low : Char) (v : String),
        (pyLower v = "[present and corrected]" →
          pflagChar up low (pyLower v) = up)
      ∧ (pyLower v = "[present and not corrected]" →
          pflagChar up low (pyLower v) = low)
      ∧ (pyLower v = "[present not significant]" →
          pflagChar up low (pyLower v) = 'X')
      ∧ (pyLower v = "[not recognized]" ∨ pyLower v = "[not recognised]" →
          pflagChar up low (pyLower v) = 'x')
      ∧ (pyIn "[present and corrected]" v = false →
          pyIn "[present and not corrected]" v = false →
          pyIn "[present not significant]" v = false →
          pyIn "[not recognised]" v = false →
          pyIn "[not recognized]" v = false →
          pflagChar up low v = '-')
      ∧ pflagChar up low v ∈ [up, low, 'X', 'x', '-']) := by
  intro r
  refine ⟨rfl, rfl, ?_, ?_⟩
  · intro r' h13 h14 h15 h16 h17 h18 h19
    show String.mk
        [pflagChar 'S' 's' (pyLower r.C13), pflagChar 'E' 'e' (pyLower r.C14),
         pflagChar 'T' 't' (pyLower r.C15), pflagChar 'P' 'p' (pyLower r.C16),
         pflagChar 'V' 'v' (pyLower r.C17), pflagChar 'C' 'c' (pyLower r.C18),
         pflagChar 'R' 'r' (pyLower r.C19)] = _
    rw [h13, h14, h15, h16, h17, h18, h19]
    rfl
  · intro up low v
    refine ⟨?_, ?_, ?_, ?_, ?_, ?_⟩
    · intro h
      rw [h, pflagChar]
      rw [if_pos (by decide)]
    · intro h
      rw [h, pflagChar]
      rw [if_neg (by decide), if_pos (by decide)]
    · intro h
      rw [h, pflagChar]
      rw [if_neg (by decide), if_neg (by decide), if_pos (by decide)]
    · intro h
      rcases h with h | h <;> rw [h, pflagChar] <;>
        rw [if_neg (by decide), if_neg (by decide), if_neg (by decide),
          if_pos (by decide)]
    · intro h1 h2 h3 h4 h5
      rw [pflagChar]
      rw [if_neg (by simp [h1]), if_neg (by simp [h2]), if_neg (by simp [h3]),
        if_neg (by simp [h4, h5])]
    · rw [pflagChar]
      split_ifs <;> simp

/-- Witness for C6 at concrete inputs: a record with mixed-case phrase
values encodes as claimed, and the exact phrases map to their letters. -/
theorem claim_C6_witness :
    pflagChar 'S' 's' (pyLower "[Present And Corrected]") = 'S'
  ∧ pflagChar 'E' 'e' (pyLower "[present and NOT corrected]") = 'e'
  ∧ pflagChar 'T' 't' (pyLower "[PRESENT NOT SIGNIFICANT]") = 'X'
  ∧ pflagChar 'P' 'p' (pyLower "[Not Recognized]") = 'x'
  ∧ pflagChar 'V' 'v' "nan" = '-'
  ∧ (complete_PFlag blankRec).length = 7 :=
  ⟨((claim_C6 blankRec).2.2.2 'S' 's' "[Present And Corrected]").1 (by decide),
   ((claim_C6 blankRec).2.2.2 'E' 'e' "[present and NOT corrected]").2.1
     (by decide),
   ((claim_C6 blankRec).2.2.2 'T' 't' "[PRESENT NOT SIGNIFICANT]").2.2.1
     (by decide),
   ((claim_C6 blankRec).2.2.2 'P' 'p' "[Not Recognized]").2.2.2.1
     (Or.inl (by decide)),
   ((claim_C6 blankRec).2.2.2 'V' 'v' "nan").2.2.2.2.1 (by decide) (by decide)
     (by decide) (by decide) (by decide),
   (claim_C6 blankRec).1⟩

/-! ## Claim C8: the borehole gradient scorer and the C32 field -/

/-- Record family for C8: a borehole record with an empty C31, sixteen
temperature points and a varying C32. -/
def c8Rec (c32 : String) : HFRec :=
  { blankRec with
    P12 := "[drilling]", C31 := "", C37 := some 16, C32 := c32 }

/-- C8 (counterexample): with C31 empty (a value other than the surface
marker), the Python expression (C31 or C32) falls through to C32, so two
records differing only in C32 receive different temperature-gradient
scores — the claim that C32 is ignored whenever C31 is not the surface
marker fails at this input. -/
theorem claim_C8_counterexample :
    (c8Rec "[logeq]").C31 ≠ "[sur]"
  ∧ (c8Rec "nan").C31 = (c8Rec "[logeq]").C31
  ∧ (Bore_t_res (c8Rec "[logeq]")).score = some (11 / 10)
  ∧ (Bore_t_res (c8Rec "nan")).score = some (2 / 5)
  ∧ Bore_t_res (c8Rec "[logeq]") ≠ Bore_t_res (c8Rec "nan") := by
  have h1 : (Bore_t_res (c8Rec "[logeq]")).score = some (11 / 10) := by
    simp +decide [Bore_t_res, c8Rec, blankRec, pyOrS, leastPenalty, onGT,
      onLT, cB]
    norm_num
  have h2 : (Bore_t_res (c8Rec "nan")).score = some (2 / 5) := by
    simp +decide [Bore_t_res, c8Rec, blankRec, pyOrS, leastPenalty, onGT,
      onLT, cB]
    norm_num
  refine ⟨by decide, rfl, h1, h2, fun h => ?_⟩
  rw [h] at h1
  rw [h2] at h1
  simp only [Option.some.injEq] at h1
  norm_num at h1

/-- C8 (amended): for every record whose normalized C31 is neither the
surface marker nor the empty string, the borehole temperature-gradient
result (score, undetermined flag and error text alike) does not depend on
C32 at all. -/
theorem claim_C8_amended : ∀ (r : HFRec) (a b : String),
    r.C31 ≠ "[sur]" → r.C31 ≠ "" →
    Bore_t_res { r with C32 := a } = Bore_t_res { r with C32 := b } := by
  intro r a b h1 h2
  have hu : ∀ z : String, pyOrS r.C31 z = r.C31 := by
    intro z
    simp [pyOrS, h2]
  simp [Bore_t_res, hu, h1]

/-- Base record for the C8 witness. -/
def c8WitRec : HFRec :=
  { blankRec with P12 := "[drilling]", C31 := "[logeq]", C37 := some 16 }

/-- Witness for C8: with a non-surface, non-empty C31, replacing C32 by a
different value leaves the borehole gradient result unchanged. -/
theorem claim_C8_witness :
    Bore_t_res { c8WitRec with C32 := "[cpd]" }
      = Bore_t_res { c8WitRec with C32 := "nan" } :=
  claim_C8_amended c8WitRec "[cpd]" "nan" (by decide) (by decide)

/-! ## Vocabulary and range validator (Vocabulary_check.py) -/

/-- Borehole-type domain values of Vocabulary_check.py (list B, lowered). -/
def vB : List String :=
  ["[drilling]", "[drilling-clustering]", "[mining]", "[tunneling]",
   "[gtm]", "[indirect (gtm-bsr-cpd-etc.)]"]

/-- Probe-type domain values of Vocabulary_check.py (list P, lowered). -/
def vP : List String :=
  ["[probing (onshore-lake-river-etc.)]", "[probing (offshore-ocean)]",
   "[probing-clustering]"]

/-- Unresolved-domain values of Vocabulary_check.py (list U, lowered). -/
def vU : List String :=
  ["[other (specify in comments)]", "[unspecified]", "nan", ""]

/-- The per-record P12 value used by the field loops of vocabcheck: empty
when any sub-value is unresolved or the sub-values mix the two domains,
otherwise the first sub-value. -/
def computeP12 (cell : String) : String :=
  let sp := pySplit ';' cell
  if sp.any (fun v => decide (v ∈ vU)) then ""
  else if sp.any (fun v => decide (v ∈ vP)) && sp.any (fun v => decide (v ∈ vB))
    then ""
  else sp.headD cell

/-- The per-record A-column message of vocabcheck: the P12 plausibility
gate evaluated on the split cell. -/
def aErr (cell : String) : String :=
  let sp := pySplit ';' cell
  if sp.any (fun v =>
      decide (v = "[other (specify in comments)]" ∨ v = "[unspecified]")) then
    " P12:Quality Check is not possible!,"
  else if sp.any (fun v => v == "nan") then
    " P12:Mandatory entry is empty; Quality Check is not possible!,"
  else if sp.any (fun v => decide (v ∈ vP)) && sp.any (fun v => decide (v ∈ vB))
    then " P12:Quality Check is not possible!,"
  else ""

/-- Static description of one numeric column: its field code, whether the
obligation row marks it mandatory, its domain-applicability string, and its
permitted range. Only generic numeric fields are modelled (the
special-cased columns C27, C29, C4, C5, C6 and C23 are not). -/
structure NumFieldSpec where
  name : String
  mand : Bool
  dom : String
  lo : ℚ
  hi : ℚ
deriving DecidableEq, Repr

/-- The numeric sub-value classification of vocabcheck for a generic
column: none models the one path of the source that assigns nothing to
error_string (a mandatory column, a NaN sub-value inside a non-NaN cell
and a domain-unresolved P12), letting the previous iteration's message
leak through. -/
def numSub (f : NumFieldSpec) (p12 : String) (cellRaw : String)
    (sv : String) : Option String :=
  let r := pyStrip sv
  match parsePyFloat r with
  | none => some (" " ++ f.name ++ ":invalid format,")
  | some x =>
    if x.truthy || r == "0" then
      if pfGE f.lo x && pfLE f.hi x then some ""
      else if x.isNanB then
        if f.mand && cellRaw == "nan" then
          if pyIn "B" f.dom && decide (p12 ∈ vB) then
            some (" " ++ f.name ++ ":Mandatory entry is empty!,")
          else if pyIn "S" f.dom && decide (p12 ∈ vP) then
            some (" " ++ f.name ++ ":Mandatory entry is empty!,")
          else if pyIn "B" f.dom && decide (p12 ∈ vU) then
            some (" " ++ f.name ++ ":Mandatory entry is empty!,")
          else some ""
        else if f.mand then
          if decide (p12 ∈ vB) then some ""
          else if decide (p12 ∈ vP) then some ""
          else none
        else some ""
      else some (" " ++ f.name ++ ":range violated,")
    else some (" " ++ f.name ++ ":range violated,")

/-- Sub-values of a multi-valued cell. -/
def cellSubs (cell : String) : List String := pySplit ';' cell

/-- One iteration of the sub-value loop: an assigning sub-value overwrites
the running error_string, the non-assigning path keeps it. -/
def numCellStep (f : NumFieldSpec) (p12 : String) (cellRaw : String)
    (st : String) (sv : String) : String :=
  match numSub f p12 cellRaw sv with
  | some e => e
  | none => st

/-- The message recorded for one numeric cell, starting from the
error_string value st left over by the previous loop iteration. -/
def numCellErr (f : NumFieldSpec) (p12 : String) (st : String)
    (cell : String) : String :=
  (cellSubs cell).foldl (numCellStep f p12 cell) st

/-- One record of the validator model: the P12 cell, the numeric cells (in
the column order of the field list), and the date cell C38. -/
structure VRow where
  P12 : String
  numCells : List String
  C38 : String
deriving DecidableEq, Repr

/-- One numeric column of the table, visited row by row with the running
error_string threaded through, as in the source's column-major loops. -/
def numColPass (f : NumFieldSpec) (j : ℕ) :
    List VRow → String → List String × String
  | [], st => ([], st)
  | row :: rest, st =>
    let e := numCellErr f (computeP12 row.P12) st (row.numCells.getD j "nan")
    let r2 := numColPass f j rest e
    (e :: r2.1, r2.2)

/-- All numeric columns in order, threading the error_string across column
boundaries exactly as the source's nested loops do. -/
def numAllCols :
    List NumFieldSpec → ℕ → List VRow → String → List (List String) × String
  | [], _, _, st => ([], st)
  | f :: fs, j, rows, st =>
    let c := numColPass f j rows st
    let rest := numAllCols fs (j + 1) rows c.2
    (c.1 :: rest.1, rest.2)

/-! ## Date field C38 (Vocabulary_check.py, vocabcheck date loop) -/

/-- All characters are decimal digits. -/
def allDigits (l : List Char) : Bool := l.all (fun c => (digitVal c).isSome)

/-- Value of a digit run. -/
def digitsVal (l : List Char) : ℕ := natOfDigits (l.map (fun c => c.toNat - 48))

/-- Model of Python int(s): optional surrounding whitespace, optional sign,
then decimal digits only; none where Python raises ValueError. -/
def pyInt (s : String) : Option ℤ :=
  let l := stripChars s.data
  let (neg, body) : Bool × List Char :=
    match l with
    | '-' :: r => (true, r)
    | '+' :: r => (false, r)
    | r => (false, r)
  if body.isEmpty || !allDigits body then none
  else some (if neg then -(digitsVal body : ℤ) else (digitsVal body : ℤ))

/-- Model of datetime.strptime(s, year-month): one to four year digits, a
dash, one or two month digits, nothing else; the year and month must be
acceptable to datetime. -/
def parseYM (s : String) : Option (ℕ × ℕ) :=
  match splitCh '-' s.data with
  | [y, m] =>
    if !y.isEmpty && y.length ≤ 4 && allDigits y
        && !m.isEmpty && m.length ≤ 2 && allDigits m then
      let yn := digitsVal y
      let mn := digitsVal m
      if 1 ≤ yn && yn ≤ 9999 && 1 ≤ mn && mn ≤ 12 then some (yn, mn)
      else none
    else none
  | _ => none

/-- The C38 check of vocabcheck for one (lowered, stripped) sub-value.
Note that the missing-cell branch of the source consults domain at the
stale loop variable c, which still holds the LAST string column C48, and
its third arm even labels the message C48. -/
def c38_sub (dfvalue : String) (cellRaw : String) (domC48 : String)
    (p12 : String) : String :=
  if dfvalue == "[unspecified]" then ""
  else if cellRaw == "nan" then
    if pyIn "B" domC48 && decide (p12 ∈ vB) then
      " C38:Mandatory entry is empty!,"
    else if pyIn "S" domC48 && decide (p12 ∈ vP) then
      " C38:Mandatory entry is empty!,"
    else if pyIn "B" domC48 && decide (p12 ∈ vU) then
      " C48:Mandatory entry is empty!,"
    else ""
  else
    if String.mk (dfvalue.data.drop (dfvalue.data.length - 2)) == "99" then
      match pyInt (String.mk (dfvalue.data.take 4)) with
      | none => " C38:invalid format,"
      | some y =>
        if 1 ≤ y ∧ y ≤ 9999 then
          if 1900 ≤ y then "" else " C38:range violated"
        else " C38:invalid format,"
    else
      match parseYM dfvalue with
      | none => " C38:invalid format,"
      | some (y, m) =>
        if m = 1 ∧ 1900 ≤ y then ""
        else if 1900 ≤ y then ""
        else " C38:range violated"

/-- The message recorded for the C38 cell: the source lowercases the cell,
splits it, strips each sub-value and overwrites the recorded message per
sub-value, so the last sub-value wins. -/
def c38_cell (cellRaw : String) (domC48 : String) (p12 : String) : String :=
  (pySplit ';' (pyLower cellRaw)).foldl
    (fun _ sv => c38_sub (pyStrip sv) cellRaw domC48 p12) ""

/-! ## Whole-table validator model -/

/-- Static header-derived data of the validator model: the numeric field
specifications (from the obligation and domain rows) and the domain string
of column C48 (consulted, through the stale loop variable, by the C38
missing-cell branch). -/
structure VEnv where
  numFields : List NumFieldSpec
  domC48 : String
deriving DecidableEq, Repr

/-- A validator input table: header-derived data plus data rows. -/
structure VTable where
  env : VEnv
  rows : List VRow
deriving DecidableEq, Repr

/-- The per-row error strings of the modelled validator: the A column, the
numeric columns (threaded column-major with the leaking error_string,
started from the last row's A message as in the source), then the C38
column, joined per row in column order. -/
def tableErrors (t : VTable) : List String :=
  let aCol := t.rows.map (fun row => aErr row.P12)
  let st0 := aCol.getLastD ""
  let cols := (numAllCols t.env.numFields 0 t.rows st0).1
  let c38col := t.rows.map
    (fun row => c38_cell row.C38 t.env.domC48 (computeP12 row.P12))
  (List.range t.rows.length).map (fun i =>
    aCol.getD i "" ++ (cols.map (fun col => col.getD i "")).foldl (· ++ ·) ""
      ++ c38col.getD i "")

/-- The per-row score results of the table: combined_score is a per-record
map over the data rows. -/
def tableScores (rows : List HFRec) : List (String × String × String × String) :=
  rows.map score_rec

/-! ## Claim C5: numeric field validation across sub-values -/

/-- Generic numeric field used by the C5 counterexample. -/
def c5Field : NumFieldSpec := ⟨"C22", false, "", 0, 999⟩

/-- C5 (counterexample): in the cell 9999999;10 the first sub-value parses
to a number far outside the permitted range 0..999, yet the recorded error
is empty, because each sub-value overwrites the previous one's message and
the last sub-value is in range — the worst case does not win. The source's
own positive example 10;20 is error-free, and the same offending value in
last position does surface the range violation. -/
theorem claim_C5_counterexample :
    cellSubs "9999999;10" = ["9999999", "10"]
  ∧ parsePyFloat (pyStrip "9999999") = some (.num (mkRat 9999999 1))
  ∧ (pfGE c5Field.lo (.num (mkRat 9999999 1))
      && pfLE c5Field.hi (.num (mkRat 9999999 1))) = false
  ∧ numSub c5Field "[drilling]" "9999999;10" "9999999"
      = some " C22:range violated,"
  ∧ numCellErr c5Field "[drilling]" "" "9999999;10" = ""
  ∧ numCellErr c5Field "[drilling]" "" "10;20" = ""
  ∧ numCellErr c5Field "[drilling]" "" "10;9999999"
      = " C22:range violated," := by
  refine ⟨by decide, by decide, by decide, by decide, by decide, by decide,
    by decide⟩

/-- C5 (amended): the error recorded for a numeric field is decided by the
last sub-value alone — later sub-values overwrite earlier ones. For a
single sub-value the classification is: unparsable goes to invalid format;
a parsed number inside the range (other than an unwritten zero) gives no
error; a parsed number outside the range gives a range violation; and a
sub-value parsing to zero but written otherwise than the single character 0
is misclassified as a range violation. -/
theorem claim_C5_amended : ∀ (f : NumFieldSpec) (p12 cellRaw st e : String)
    (init : List String) (lastv : String) (sv : String) (q : ℚ),
    (numSub f p12 cellRaw lastv = some e →
      (init ++ [lastv]).foldl (numCellStep f p12 cellRaw) st = e)
  ∧ (parsePyFloat (pyStrip sv) = none →
      numSub f p12 cellRaw sv = some (" " ++ f.name ++ ":invalid format,"))
  ∧ (parsePyFloat (pyStrip sv) = some (.num q) → (q ≠ 0 ∨ pyStrip sv = "0") →
      f.lo ≤ q → q ≤ f.hi → numSub f p12 cellRaw sv = some "")
  ∧ (parsePyFloat (pyStrip sv) = some (.num q) → (q ≠ 0 ∨ pyStrip sv = "0") →
      (q < f.lo ∨ f.hi < q) →
      numSub f p12 cellRaw sv = some (" " ++ f.name ++ ":range violated,"))
  ∧ (parsePyFloat (pyStrip sv) = some (.num 0) → pyStrip sv ≠ "0" →
      numSub f p12 cellRaw sv = some (" " ++ f.name ++ ":range violated,")) := by
  intro f p12 cellRaw st e init lastv sv q
  refine ⟨?_, ?_, ?_, ?_, ?_⟩
  · intro h
    rw [List.foldl_append]
    simp [numCellStep, h]
  · intro h
    simp [numSub, h]
  · intro hp hz hlo hhi
    have hcond : ((PyFloat.num q).truthy || (pyStrip sv == "0")) = true := by
      rcases hz with hq | hs
      · simp [PyFloat.truthy, hq]
      · simp [hs]
    simp [numSub, hp, hcond, pfGE, pfLE, hlo, hhi]
  · intro hp hz hr
    have hcond : ((PyFloat.num q).truthy || (pyStrip sv == "0")) = true := by
      rcases hz with hq | hs
      · simp [PyFloat.truthy, hq]
      · simp [hs]
    have hrange : (pfGE f.lo (.num q) && pfLE f.hi (.num q)) = false := by
      rcases hr with h | h
      · have hx : ¬ f.lo ≤ q := not_le.mpr h
        simp [pfGE, hx]
      · have hx : ¬ q ≤ f.hi := not_le.mpr h
        simp [pfGE, pfLE, hx]
    simp [numSub, hp, hcond, hrange, PyFloat.isNanB]
  · intro hp hne
    have hcond : ((PyFloat.num 0).truthy || (pyStrip sv == "0")) = false := by
      simp [PyFloat.truthy, hne]
    simp [numSub, hp, hcond]

/-- Witness for C5 at concrete inputs: the last-sub-value rule and each
classification of the amended claim, instantiated. -/
theorem claim_C5_witness :
    (["9999999"] ++ ["10"]).foldl (numCellStep c5Field "[drilling]" "9999999;10") ""
      = ""
  ∧ numSub c5Field "[drilling]" "abc" "abc"
      = some " C22:invalid format,"
  ∧ numSub c5Field "[drilling]" "10" "10" = some ""
  ∧ numSub c5Field "[drilling]" "9999999" "9999999"
      = some " C22:range violated,"
  ∧ numSub c5Field "[drilling]" "0.0" "0.0"
      = some " C22:range violated," := by
  refine ⟨?_, ?_, ?_, ?_, ?_⟩
  · exact (claim_C5_amended c5Field "[drilling]" "9999999;10" "" ""
      ["9999999"] "10" "10" 10).1 (by decide)
  · exact (claim_C5_amended c5Field "[drilling]" "abc" "" "" [] "abc" "abc"
      0).2.1 (by decide)
  · exact (claim_C5_amended c5Field "[drilling]" "10" "" "" [] "10" "10"
      10).2.2.1 (by decide) (Or.inl (by norm_num)) (by norm_num [c5Field])
      (by norm_num [c5Field])
  · exact (claim_C5_amended c5Field "[drilling]" "9999999" "" "" [] "9999999"
      "9999999" (mkRat 9999999 1)).2.2.2.1 (by decide) (Or.inl (by norm_num))
      (Or.inr (by norm_num [c5Field]))
  · exact (claim_C5_amended c5Field "[drilling]" "0.0" "" "" [] "0.0" "0.0"
      0).2.2.2.2 (by decide) (by decide)

/-! ## Claim C7: the date field C38 -/

/-- C7: evaluation of the C38 check. The accepting and rejecting date
branches behave as the claim states, but at the failing input — a missing
C38 cell with an unresolved P12 and a domain row whose C48 entry contains
B — the source consults the domain of column C48 (the stale loop variable)
and labels the mandatory-empty message C48 instead of C38. -/
theorem claim_C7_code_eval :
    c38_cell "nan" "B" "" = " C48:Mandatory entry is empty!,"
  ∧ c38_cell "nan" "B" "" ≠ " C38:Mandatory entry is empty!,"
  ∧ c38_cell "[unspecified]" "B" "" = ""
  ∧ c38_cell "1995-06" "B" "[drilling]" = ""
  ∧ c38_cell "1999" "B" "[drilling]" = ""
  ∧ c38_cell "1899-99" "B" "[drilling]" = " C38:range violated"
  ∧ c38_cell "1880-06" "B" "[drilling]" = " C38:range violated"
  ∧ c38_cell "garbage" "B" "[drilling]" = " C38:invalid format," := by
  refine ⟨by decide, by decide, by decide, by decide, by decide, by decide,
    by decide, by decide⟩

/-! ## Claim C9: in-place mutation of the input table (Combined_score.py) -/

/-- Numeric columns of Combined_score.py (list NumC). -/
def cNumC : List String :=
  ["P4", "P5", "P6", "P10", "P11", "C1", "C2", "C4", "C5", "C6", "C22",
   "C23", "C24", "C27", "C28", "C29", "C30", "C33", "C34", "C37", "C39",
   "C40", "C47"]

/-- String columns of Combined_score.py (list StrC). -/
def cStrC : List String :=
  ["P7", "P9", "P12", "P13", "C3", "C11", "C12", "C13", "C14", "C15", "C16",
   "C17", "C18", "C19", "C20", "C21", "C31", "C32", "C35", "C36", "C41",
   "C42", "C43", "C44", "C45", "C46", "C48"]

/-- A raw dataframe cell: a string or a float. -/
inductive PyCell where
  | str : String → PyCell
  | num : PyFloat → PyCell
deriving DecidableEq, Repr

/-- Model of float(cell): floats pass through, strings are parsed. -/
def pyCellFloat : PyCell → Option PyFloat
  | .num x => some x
  | .str s => parsePyFloat s

/-- Model of str() on a float value (the fractional formatting of Python
floats is approximated; the claims never evaluate it). -/
def pyFloatRepr : PyFloat → String
  | .nan => "nan"
  | .inf => "inf"
  | .ninf => "-inf"
  | .num q => if q.den = 1 then toString q.num ++ ".0" else toString q

/-- Model of str(cell). -/
def pyCellStr : PyCell → String
  | .str s => s
  | .num x => pyFloatRepr x

/-- The cell-level effect of change_type: numeric columns are coerced to
floats with unparsable values becoming NaN, string columns go through
astype(str) and lower(), all other columns are untouched. -/
def change_type_cell (col : String) (v : PyCell) : PyCell :=
  if col ∈ cNumC then
    match pyCellFloat v with
    | some x => .num x
    | none => .num .nan
  else if col ∈ cStrC then .str (pyLower (pyCellStr v))
  else v

/-- A dataframe row: named cells. -/
abbrev PyRow := List (String × PyCell)

/-- The row-level effect of change_type. -/
def change_type_row (r : PyRow) : PyRow :=
  r.map (fun nc => (nc.1, change_type_cell nc.1 nc.2))

/-- A raw dataframe. -/
structure PyTable where
  rows : List PyRow
deriving DecidableEq, Repr

/-- The table-level effect of change_type, which the source performs in
place on the frame it receives. -/
def change_type_tbl (t : PyTable) : PyTable :=
  ⟨t.rows.map change_type_row⟩

/-- The cell df.at[0, ID] inspected by remove_rows. -/
def at0ID (t : PyTable) : Option PyCell := (t.rows.headD []).lookup "ID"

/-- Header detection of remove_rows: the Obligation sentinel drops seven
rows, the Short Name sentinel drops one, anything else leaves the frame
as it is. -/
def headerDrop (t : PyTable) : Option ℕ :=
  if at0ID t = some (.str "Obligation") then some 7
  else if at0ID t = some (.str "Short Name") then some 1
  else none

/-- remove_rows with aliasing information: when a sentinel is found the
returned frame is a fresh copy produced by drop, otherwise the function
returns the caller's own frame (the second component records that
aliasing). -/
def remove_rows_ret (t : PyTable) : PyTable × Bool :=
  match headerDrop t with
  | some k => (⟨t.rows.drop k⟩, false)
  | none => (t, true)

/-- What the caller's table refers to after the scoring pipeline has run
change_type on the frame returned by remove_rows: the in-place mutation
lands on the caller's frame exactly when remove_rows aliased it. -/
def pipelineCallerView (t : PyTable) : PyTable :=
  let rr := remove_rows_ret t
  if rr.2 then change_type_tbl rr.1 else t

/-- Sentinel-free one-row table with an upper-case string cell in the
string column P7. -/
def c9Tbl : PyTable := ⟨[[("ID", .str "x"), ("P7", .str "FOO")]]⟩

/-- C9 (counterexample): on a table without a header sentinel the pipeline
mutates the caller's table in place — after scoring, the original cell FOO
has become foo — so the input is not read-only. -/
theorem claim_C9_counterexample :
    pipelineCallerView c9Tbl ≠ c9Tbl
  ∧ pipelineCallerView c9Tbl = ⟨[[("ID", .str "x"), ("P7", .str "foo")]]⟩ := by
  refine ⟨by decide, by decide⟩

/-- C9 (amended): the caller's table survives the scoring pipeline
unchanged exactly when a header sentinel made remove_rows return a fresh
frame, or the table was already change_type-normal (numeric columns
already floats, string columns already lowered strings). -/
theorem claim_C9_amended : ∀ t : PyTable,
    pipelineCallerView t = t
      ↔ ((headerDrop t).isSome ∨ change_type_tbl t = t) := by
  intro t
  rcases hh : headerDrop t with _ | k <;>
    simp [pipelineCallerView, remove_rows_ret, hh]

/-- Already-normalized sentinel-free table. -/
def c9NormTbl : PyTable := ⟨[[("ID", .str "x"), ("P7", .str "foo")]]⟩

/-- Witness for C9: an already-normalized sentinel-free table passes
through the pipeline unchanged. -/
theorem claim_C9_witness : pipelineCallerView c9NormTbl = c9NormTbl :=
  (claim_C9_amended c9NormTbl).mpr (Or.inr (by decide))

/-! ## Claim C10: per-record independence of scoring and validation -/

/-- At least one sub-value of the cell assigns a message (the condition
under which the recorded error cannot leak the previous iteration's
error_string). -/
def cellAssigns (f : NumFieldSpec) (p12 : String) (cell : String) : Bool :=
  (cellSubs cell).any (fun sv => (numSub f p12 cell sv).isSome)

/-- Every numeric cell of the row assigns, for the columns from position j
on. -/
def rowAssignsFrom : List NumFieldSpec → ℕ → VRow → Bool
  | [], _, _ => true
  | f :: fs, j, row =>
    cellAssigns f (computeP12 row.P12) (row.numCells.getD j "nan") &&
      rowAssignsFrom fs (j + 1) row

theorem foldl_step_any (f : NumFieldSpec) (p12 cellRaw : String) :
    ∀ l : List String,
      l.any (fun sv => (numSub f p12 cellRaw sv).isSome) = true →
      ∀ s1 s2 : String,
        l.foldl (numCellStep f p12 cellRaw) s1
          = l.foldl (numCellStep f p12 cellRaw) s2 := by
  intro l
  induction l with
  | nil => intro h; simp at h
  | cons a t ih =>
    intro h s1 s2
    rcases ha : numSub f p12 cellRaw a with _ | e
    · have ht : t.any (fun sv => (numSub f p12 cellRaw sv).isSome) = true := by
        simp only [List.any_cons, ha, Option.isSome_none, Bool.false_or] at h
        exact h
      simp only [List.foldl_cons, numCellStep, ha]
      exact ih ht s1 s2
    · simp only [List.foldl_cons, numCellStep, ha]

theorem numCellErr_assigns (f : NumFieldSpec) (p12 cell : String)
    (h : cellAssigns f p12 cell = true) (s1 s2 : String) :
    numCellErr f p12 s1 cell = numCellErr f p12 s2 cell :=
  foldl_step_any f p12 cell (cellSubs cell) h s1 s2

theorem numColPass_idx (f : NumFieldSpec) (j : ℕ) :
    ∀ (i : ℕ) (l1 l2 : List VRow) (s1 s2 : String) (row : VRow),
      l1[i]? = some row → l2[i]? = some row →
      cellAssigns f (computeP12 row.P12) (row.numCells.getD j "nan") = true →
      ((numColPass f j l1 s1).1)[i]? = ((numColPass f j l2 s2).1)[i]? := by
  intro i
  induction i with
  | zero =>
    intro l1 l2 s1 s2 row h1 h2 hca
    cases l1 with
    | nil => simp at h1
    | cons r1 t1 =>
      cases l2 with
      | nil => simp at h2
      | cons r2 t2 =>
        simp only [List.getElem?_cons_zero, Option.some.injEq] at h1 h2
        subst h1
        subst h2
        simp only [numColPass, List.getElem?_cons_zero, Option.some.injEq]
        exact numCellErr_assigns f _ _ hca s1 s2
  | succ n ih =>
    intro l1 l2 s1 s2 row h1 h2 hca
    cases l1 with
    | nil => simp at h1
    | cons r1 t1 =>
      cases l2 with
      | nil => simp at h2
      | cons r2 t2 =>
        simp only [List.getElem?_cons_succ] at h1 h2
        simp only [numColPass, List.getElem?_cons_succ]
        exact ih t1 t2 _ _ row h1 h2 hca

theorem numAllCols_idx :
    ∀ (fs : List NumFieldSpec) (j : ℕ) (l1 l2 : List VRow) (s1 s2 : String)
      (i : ℕ) (row : VRow),
      l1[i]? = some row → l2[i]? = some row →
      rowAssignsFrom fs j row = true →
      ((numAllCols fs j l1 s1).1).map (fun col => col.getD i "")
        = ((numAllCols fs j l2 s2).1).map (fun col => col.getD i "") := by
  intro fs
  induction fs with
  | nil =>
    intro j l1 l2 s1 s2 i row h1 h2 hra
    simp [numAllCols]
  | cons f fs ih =>
    intro j l1 l2 s1 s2 i row h1 h2 hra
    simp only [rowAssignsFrom, Bool.and_eq_true] at hra
    obtain ⟨hc, hrest⟩ := hra
    have hh : (numColPass f j l1 s1).1.getD i ""
        = (numColPass f j l2 s2).1.getD i "" := by
      simp [List.getD, numColPass_idx f j i l1 l2 s1 s2 row h1 h2 hc]
    simp only [numAllCols, List.map_cons]
    rw [hh, ih (j + 1) l1 l2 _ _ i row h1 h2 hrest]

theorem tableErrors_idx (env : VEnv) (rows1 rows2 : List VRow) (i : ℕ)
    (row : VRow) (h1 : rows1[i]? = some row) (h2 : rows2[i]? = some row)
    (hra : rowAssignsFrom env.numFields 0 row = true) :
    (tableErrors ⟨env, rows1⟩)[i]? = (tableErrors ⟨env, rows2⟩)[i]? := by
  have hn1 : i < rows1.length := by
    by_contra hc
    push_neg at hc
    rw [List.getElem?_eq_none hc] at h1
    exact Option.noConfusion h1
  have hn2 : i < rows2.length := by
    by_contra hc
    push_neg at hc
    rw [List.getElem?_eq_none hc] at h2
    exact Option.noConfusion h2
  simp only [tableErrors]
  rw [List.getElem?_map, List.getElem?_map, List.getElem?_range hn1,
    List.getElem?_range hn2]
  simp only [Option.map_some']
  congr 1
  have ha : (rows1.map (fun row => aErr row.P12)).getD i ""
      = (rows2.map (fun row => aErr row.P12)).getD i "" := by
    simp [List.getD, List.getElem?_map, h1, h2]
  have hc38 : (rows1.map
        (fun row => c38_cell row.C38 env.domC48 (computeP12 row.P12))).getD i ""
      = (rows2.map
        (fun row => c38_cell row.C38 env.domC48 (computeP12 row.P12))).getD i ""
      := by
    simp [List.getD, List.getElem?_map, h1, h2]
  have hcols := numAllCols_idx env.numFields 0 rows1 rows2
    ((rows1.map (fun row => aErr row.P12)).getLastD "")
    ((rows2.map (fun row => aErr row.P12)).getLastD "") i row h1 h2 hra
  rw [ha, hc38, hcols]

/-- C10 (amended): no record's scoring result depends on any other
record's data, and the same holds for the validator's error strings except
through the error_string leak — for any two tables with the same
header-derived data agreeing on data row i, if every numeric cell of that
row classifies at least one sub-value (which bars the leaking path), the
U / M / P / combined codes and the error string computed for row i are
identical. -/
theorem claim_C10_amended :
    ∀ (rs1 rs2 : List HFRec) (t1 t2 : VTable) (i : ℕ) (row : VRow),
      rs1[i]? = rs2[i]? →
      t1.env = t2.env →
      t1.rows[i]? = some row → t2.rows[i]? = some row →
      rowAssignsFrom t1.env.numFields 0 row = true →
      (tableScores rs1)[i]? = (tableScores rs2)[i]?
      ∧ (tableErrors t1)[i]? = (tableErrors t2)[i]? := by
  intro rs1 rs2 t1 t2 i row hs henv h1 h2 hra
  constructor
  · simp only [tableScores, List.getElem?_map, hs]
  · obtain ⟨env1, rows1⟩ := t1
    obtain ⟨env2, rows2⟩ := t2
    simp only at henv h1 h2 hra
    subst henv
    exact tableErrors_idx env1 rows1 rows2 i row h1 h2 hra

/-- Header data of the C10 counterexample: one mandatory borehole-domain
numeric column C22 with range 0..999. -/
def c10Env : VEnv := ⟨[⟨"C22", true, "B", 0, 999⟩], ""⟩

/-- First row, variant with an out-of-range C22 cell. -/
def c10RowA : VRow := ⟨"[drilling]", ["99999"], "[unspecified]"⟩

/-- First row, variant with an in-range C22 cell. -/
def c10RowA2 : VRow := ⟨"[drilling]", ["5"], "[unspecified]"⟩

/-- Second row, identical in both tables: an unresolved P12 and a doubly
missing mandatory C22 cell, which makes every sub-value take the
non-assigning path. -/
def c10RowB : VRow := ⟨"[unspecified]", ["nan;nan"], "[unspecified]"⟩

/-- Counterexample table one. -/
def c10T1 : VTable := ⟨c10Env, [c10RowA, c10RowB]⟩

/-- Counterexample table two, differing from table one only in row 0. -/
def c10T2 : VTable := ⟨c10Env, [c10RowA2, c10RowB]⟩

/-- C10 (counterexample): the two tables share their header data and their
second data row, yet that row's validation error string differs — the
stale error_string of the first row's C22 check leaks into the second
row's error cell — so a record's validation result can depend on another
record's data. -/
theorem claim_C10_counterexample :
    c10T1.env = c10T2.env
  ∧ c10T1.rows[1]? = c10T2.rows[1]?
  ∧ (tableErrors c10T1).getD 1 ""
      = " P12:Quality Check is not possible!, C22:range violated,"
  ∧ (tableErrors c10T2).getD 1 "" = " P12:Quality Check is not possible!,"
  ∧ (tableErrors c10T1)[1]? ≠ (tableErrors c10T2)[1]? := by
  refine ⟨by decide, by decide, by decide, by decide, by decide⟩

/-- Witness for C10: two single-row tables agreeing on their only row,
whose numeric cell classifies a sub-value, receive identical scores and
identical error strings at that row. -/
theorem claim_C10_witness :
    (tableScores [blankRec])[0]? = (tableScores [blankRec])[0]?
  ∧ (tableErrors ⟨c10Env, [c10RowA]⟩)[0]?
      = (tableErrors ⟨c10Env, [c10RowA]⟩)[0]? :=
  claim_C10_amended [blankRec] [blankRec] ⟨c10Env, [c10RowA]⟩
    ⟨c10Env, [c10RowA]⟩ 0 c10RowA rfl rfl (by decide) (by decide) (by decide)

/-- Witness for C3 at a concrete input: a defined product 1 with both
sub-scores defined and no undetermined criterion grades M1 and carries no
suffix. -/
theorem claim_C3_witness :
    M_score (some 1) (some 1) (some 1) false
      = M_grade_spec (some 1) false
  ∧ ¬(M_score (some 1) (some 1) (some 1) false
      ∈ (["M1x", "M2x", "M3x", "M4x"] : List String)) :=
  ⟨(claim_C3 (some 1) (some 1) (some 1) false).1,
   fun hmem => by
    have h := ((claim_C3 (some 1) (some 1) (some 1) false).2.1 1 (by norm_num)
      (by norm_num)).mp hmem
    exact absurd h (by decide)⟩
